import Mathlib

/-! Verification development for the Kochi Metro fleet-induction decision engine.
Definitions transcribe the Python sources of the repository (the `agents`
service and the `backend` optimizer); numeric values computed with Python
floats are embedded as exact rationals.  Theorems settle the specification
claims about this code. -/

namespace KMRL

/-- `AgentType` enumeration, agents/src/models/schemas.py. -/
inductive AgentType where
  | fitness_certificate
  | job_card
  | branding
  | mileage
  | cleaning
  | stabling
deriving DecidableEq, Repr

/-- `PlanningMode` enumeration, agents/src/models/schemas.py. -/
inductive PlanningMode where
  | normal
  | emergency
  | crisis
deriving DecidableEq, Repr

/-- `RecommendedAction` enumeration, agents/src/models/schemas.py. -/
inductive RecommendedAction where
  | revenue
  | standby
  | maintenance
deriving DecidableEq, Repr

/-- `ConflictSeverity` enumeration, agents/src/models/schemas.py. -/
inductive ConflictSeverity where
  | low
  | medium
  | high
  | critical
deriving DecidableEq, Repr

/-- `ConflictAlert` pydantic model, agents/src/models/schemas.py.
`resolution` is `Optional[str]` defaulting to `None`. -/
structure ConflictAlert where
  train_id : Int
  train_number : String
  conflict_type : String
  severity : ConflictSeverity
  description : String
  affected_agents : List AgentType
  resolution : Option String := none
deriving DecidableEq, Repr

/-- `BaseAgent.is_emergency_mode`, agents/src/agents/base_agent.py. -/
def is_emergency_mode (mode : PlanningMode) : Bool :=
  mode == .emergency || mode == .crisis

/-- `get_agent_weights`, agents/src/optimization/scoring.py.  The Python
function returns a dict literal; here it is the corresponding function from
agent type to weight.  The dict's insertion order is `agentOrder` below. -/
def get_agent_weights (mode : PlanningMode) (a : AgentType) : ℚ :=
  if mode = .emergency ∨ mode = .crisis then
    match a with
    | .fitness_certificate => 0.30
    | .job_card => 0.25
    | .branding => 0.05
    | .mileage => 0.05
    | .cleaning => 0.03
    | .stabling => 0.05
  else
    match a with
    | .fitness_certificate => 0.25
    | .job_card => 0.20
    | .branding => 0.15
    | .mileage => 0.15
    | .cleaning => 0.10
    | .stabling => 0.15

/-- Iteration order of the weight dicts in `get_agent_weights` (both dict
literals list the six agents in this insertion order). -/
def agentOrder : List AgentType :=
  [.fitness_certificate, .job_card, .branding, .mileage, .cleaning, .stabling]

/-- The `agent_scores: Dict[AgentType, float]` arguments: a possibly partial
map, `none` modelling an absent key. -/
def AgentScores : Type := AgentType → Option ℚ

/-- `agent_scores.get(agent_type, default)`. -/
def scoreGetD (s : AgentScores) (a : AgentType) (d : ℚ) : ℚ :=
  (s a).getD d

/-- `calculate_composite_score`, agents/src/optimization/scoring.py. -/
def calculate_composite_score (agent_scores : AgentScores) (mode : PlanningMode)
    (readiness_bonus : ℚ := 0) : ℚ :=
  if scoreGetD agent_scores .fitness_certificate 100 = 0 then 0
  else if scoreGetD agent_scores .job_card 100 = 0 then 0
  else
    let ws : ℚ := agentOrder.foldl
      (fun acc a => acc + scoreGetD agent_scores a 50 * get_agent_weights mode a) 0
    let ws : ℚ := if mode = .emergency ∨ mode = .crisis then ws + readiness_bonus else ws
    let ws : ℚ := if scoreGetD agent_scores .fitness_certificate 100 < 60 then ws * 0.5 else ws
    max 0 (min 100 ws)

/-- `calculate_readiness_bonus`, agents/src/optimization/scoring.py. -/
def calculate_readiness_bonus (readiness_minutes : Int) : ℚ :=
  if readiness_minutes ≤ 15 then 27
  else if readiness_minutes ≤ 20 then 20
  else if readiness_minutes ≤ 25 then 10
  else 0

/-- `MultiObjectiveOptimizer._determine_action`,
agents/src/optimization/multi_objective.py. -/
def determine_action (composite_score : ℚ) (agent_scores : AgentScores)
    (train_id : Int) (conflicts : List ConflictAlert) : RecommendedAction :=
  if scoreGetD agent_scores .fitness_certificate 100 = 0 then .maintenance
  else if scoreGetD agent_scores .job_card 100 = 0 then .maintenance
  else if (conflicts.filter
      (fun c => c.train_id == train_id && c.severity == .critical)) ≠ [] then .maintenance
  else if composite_score ≥ 80 then .revenue
  else if composite_score ≥ 60 then .standby
  else .maintenance

/-- The six-term expansion of the weight-dict loop in
`calculate_composite_score`. -/
theorem weighted_sum_eq (s : AgentScores) (mode : PlanningMode) :
    agentOrder.foldl (fun acc a => acc + scoreGetD s a 50 * get_agent_weights mode a) 0 =
      scoreGetD s .fitness_certificate 50 * get_agent_weights mode .fitness_certificate +
      scoreGetD s .job_card 50 * get_agent_weights mode .job_card +
      scoreGetD s .branding 50 * get_agent_weights mode .branding +
      scoreGetD s .mileage 50 * get_agent_weights mode .mileage +
      scoreGetD s .cleaning 50 * get_agent_weights mode .cleaning +
      scoreGetD s .stabling 50 * get_agent_weights mode .stabling := by
  simp [agentOrder, List.foldl]

/-- A fitness certificate record as read from the backend JSON
(`department`, `expiryDate`).  Dates are embedded as days since an epoch;
`expiry = none` models a missing or unparseable `expiryDate` (both make the
Python loop `continue`). -/
structure Certificate where
  department : String
  expiry : Option Int
deriving DecidableEq, Repr

/-- `BaseAgent.days_until_date`, agents/src/agents/base_agent.py
(`(target_date - reference_date).days`; with day-granularity dates this is
exact integer subtraction). -/
def days_until_date (target refd : Int) : Int :=
  target - refd

/-- The per-certificate status classification inside
`FitnessCertificateAgent._evaluate_certificates`
(agents/src/agents/fitness_agent.py, lines 117-131). -/
def certStatus (days_remaining : Int) (mode : PlanningMode) : String :=
  let min_validity_days : Int := if is_emergency_mode mode then 1 else 3
  if days_remaining < 0 then "expired"
  else if days_remaining < min_validity_days then "expiring_imminent"
  else if days_remaining < 7 then "expiring_soon"
  else "valid"

/-- The `reasoning` dict built by
`FitnessCertificateAgent._evaluate_certificates`.  `department_status` is a
Python dict keyed by department; it is recorded here as the association list
in loop order (later duplicates overwrite in Python; no claim depends on it).
The `no_certificates` early return produces a dict with `status`/`message`
keys, modelled by the `status` field. -/
structure CertReasoning where
  status : Option String := none
  total_certificates : Nat := 0
  valid_count : Nat := 0
  expired_count : Nat := 0
  expiring_soon_count : Nat := 0
  department_status : List (String × String × Int) := []
deriving DecidableEq, Repr

/-- `FitnessCertificateAgent.calculate_score_from_status`,
agents/src/agents/fitness_agent.py lines 170-201.  Note the `mode` argument
is never consulted in the body. -/
def calculate_score_from_status (expired expiring_soon valid total_required : Nat)
    (_mode : PlanningMode) : ℚ :=
  if expired > 0 then 0
  else if valid = total_required then 100
  else
    let validity_ratio : ℚ := if total_required > 0 then (valid : ℚ) / (total_required : ℚ) else 0
    if expiring_soon > 0 then
      max 0 (validity_ratio * 100 - 20 * (expiring_soon : ℚ))
    else validity_ratio * 100

/-- The certificate loop of `_evaluate_certificates` (fitness_agent.py lines
103-137): returns (expired_count, expiring_soon_count, valid_count,
department_status), transcribing the `days < 0` / `< min_validity_days` /
`< 7` / `else` ladder (the first branch bumps `expired_count`, the middle two
both bump `expiring_soon_count`, the last bumps `valid_count`). -/
def classifyCertificates (certificates : List Certificate) (decision_date : Int)
    (mode : PlanningMode) : Nat × Nat × Nat × List (String × String × Int) :=
  certificates.foldl
    (fun acc cert =>
      match cert.expiry with
      | none => acc
      | some e =>
        let days := days_until_date e decision_date
        let min_validity_days : Int := if is_emergency_mode mode then 1 else 3
        if days < 0 then
          (acc.1 + 1, acc.2.1, acc.2.2.1, acc.2.2.2 ++ [(cert.department, "expired", days)])
        else if days < min_validity_days then
          (acc.1, acc.2.1 + 1, acc.2.2.1,
            acc.2.2.2 ++ [(cert.department, "expiring_imminent", days)])
        else if days < 7 then
          (acc.1, acc.2.1 + 1, acc.2.2.1,
            acc.2.2.2 ++ [(cert.department, "expiring_soon", days)])
        else
          (acc.1, acc.2.1, acc.2.2.1 + 1, acc.2.2.2 ++ [(cert.department, "valid", days)]))
    (0, 0, 0, [])

/-- `FitnessCertificateAgent._evaluate_certificates`,
agents/src/agents/fitness_agent.py lines 77-168.  Returns the tuple
`(score, reasoning, alerts, recommendations)` exactly as the Python does;
`required_departments` has length 3, so `total_required = 3`. -/
def evaluate_certificates (certificates : List Certificate) (decision_date : Int)
    (mode : PlanningMode) : ℚ × CertReasoning × List String × List String :=
  if certificates = [] then
    (0, { status := some "no_certificates" },
      ["No fitness certificates available"],
      ["Obtain fitness certificates before service"])
  else
    let c := classifyCertificates certificates decision_date mode
    let expired_count := c.1
    let expiring_soon_count := c.2.1
    let valid_count := c.2.2.1
    let score := calculate_score_from_status expired_count expiring_soon_count
      valid_count 3 mode
    let reasoning : CertReasoning :=
      { total_certificates := certificates.length
        valid_count := valid_count
        expired_count := expired_count
        expiring_soon_count := expiring_soon_count
        department_status := c.2.2.2 }
    let alerts := (if expired_count > 0 then
        ["CRITICAL: expired certificate(s) - Block revenue service"] else []) ++
      (if expiring_soon_count > 0 then ["WARNING: certificate(s) expiring soon"] else [])
    let recommendations := (if expired_count > 0 then
        ["Renew expired certificates immediately"] else []) ++
      (if expiring_soon_count > 0 then
        ["Schedule certificate renewal before expiry"] else [])
    (score, reasoning, alerts, recommendations)

/-- A job card record as read from the backend JSON
(agents/src/agents/job_card_agent.py). -/
structure JobCardData where
  status : String
  priority : String
  blockingService : Bool := false
deriving DecidableEq, Repr

/-- `JobCardAgent._calculate_job_card_score`,
agents/src/agents/job_card_agent.py lines 123-151. -/
def calculate_job_card_score (blocking critical high medium low : Nat)
    (max_critical_allowed : Nat) : ℚ :=
  if blocking > 0 then 0
  else if critical > max_critical_allowed then 0
  else if critical > 0 then 40
  else if high > 0 then 70
  else if medium > 0 then 90
  else if low > 0 then 90
  else 100

/-- The `reasoning` dict built by `JobCardAgent._evaluate_job_cards`
(either the `no_open_jobs` early return or the per-priority counts). -/
structure JobReasoning where
  status : Option String := none
  total_open_jobs : Nat := 0
  critical_count : Nat := 0
  high_count : Nat := 0
  medium_count : Nat := 0
  low_count : Nat := 0
  blocking_jobs : Nat := 0
deriving DecidableEq, Repr

/-- `JobCardAgent._evaluate_job_cards`, agents/src/agents/job_card_agent.py
lines 46-121, returning `(score, reasoning, alerts, recommendations)`. -/
def evaluate_job_cards (job_cards : List JobCardData) (mode : PlanningMode) :
    ℚ × JobReasoning × List String × List String :=
  let open_jobs := job_cards.filter (fun j => j.status = "open" ∨ j.status = "in_progress")
  if open_jobs = [] then
    (100, { status := some "no_open_jobs" }, [], ["Train ready for service"])
  else
    let critical_jobs := open_jobs.filter (fun j => j.priority = "critical")
    let high_jobs := open_jobs.filter (fun j => j.priority = "high")
    let medium_jobs := open_jobs.filter (fun j => j.priority = "medium")
    let low_jobs := open_jobs.filter (fun j => j.priority = "low")
    let blocking_jobs := critical_jobs.filter (fun j => j.blockingService)
    let max_critical_allowed : Nat := if is_emergency_mode mode then 3 else 2
    let score := calculate_job_card_score blocking_jobs.length critical_jobs.length
      high_jobs.length medium_jobs.length low_jobs.length max_critical_allowed
    let reasoning : JobReasoning :=
      { total_open_jobs := open_jobs.length
        critical_count := critical_jobs.length
        high_count := high_jobs.length
        medium_count := medium_jobs.length
        low_count := low_jobs.length
        blocking_jobs := blocking_jobs.length }
    let alerts := (if blocking_jobs.length > 0 then
        ["CRITICAL: blocking job(s) - Cannot enter revenue service"] else []) ++
      (if critical_jobs.length > max_critical_allowed then
        ["WARNING: critical job(s) exceed threshold"] else [])
    let recommendations := (if blocking_jobs.length > 0 then
        ["Complete blocking jobs before revenue service"] else []) ++
      (if critical_jobs.length > max_critical_allowed then
        ["Schedule maintenance for critical jobs"] else []) ++
      (if high_jobs.length > 0 then ["Review high priority jobs"] else [])
    (score, reasoning, alerts, recommendations)

/-- A mileage record as read from the backend JSON (`cumulativeMileage`). -/
structure MileageRecord where
  cumulativeMileage : ℚ := 0
deriving DecidableEq, Repr

/-- `MileageAgent._calculate_mileage_score`,
agents/src/agents/mileage_agent.py lines 138-156. -/
def calculate_mileage_score (deviation_percent : ℚ) (mode : PlanningMode) : ℚ :=
  if is_emergency_mode mode then 50
  else
    let abs_deviation := |deviation_percent|
    if abs_deviation ≤ 5 then 100
    else if abs_deviation ≤ 10 then (if deviation_percent < 0 then 90 else 85)
    else if abs_deviation ≤ 20 then (if deviation_percent < 0 then 70 else 50)
    else if abs_deviation ≤ 30 then (if deviation_percent < 0 then 50 else 30)
    else (if deviation_percent > 0 then 0 else 100)

/-- The `reasoning` dict of `MileageAgent._evaluate_mileage`. -/
structure MileageReasoning where
  status : Option String := none
  cumulative_mileage : ℚ := 0
  fleet_average : ℚ := 0
  deviation_percent : ℚ := 0
deriving DecidableEq, Repr

/-- `MileageAgent._evaluate_mileage`, agents/src/agents/mileage_agent.py
lines 83-136, returning `(score, reasoning, alerts, recommendations)`.
`mileage_data[0]` is the latest record. -/
def evaluate_mileage (mileage_data : List MileageRecord) (fleet_avg : ℚ)
    (mode : PlanningMode) : ℚ × MileageReasoning × List String × List String :=
  match mileage_data with
  | [] => (50, { status := some "no_mileage_data" }, [], [])
  | latest :: _ =>
    let cumulative_mileage := latest.cumulativeMileage
    if fleet_avg = 0 then
      (50, { status := some "no_fleet_data" }, [], [])
    else
      let deviation : ℚ :=
        if fleet_avg > 0 then (cumulative_mileage - fleet_avg) / fleet_avg * 100 else 0
      let score := calculate_mileage_score deviation mode
      let reasoning : MileageReasoning :=
        { cumulative_mileage := cumulative_mileage
          fleet_average := fleet_avg
          deviation_percent := deviation }
      let alerts := if |deviation| > 30 then ["EXTREME: Mileage deviation from fleet average"]
        else if |deviation| > 20 then ["WARNING: Significant mileage deviation"] else []
      let recommendations := if deviation > 20 then
          ["Consider maintenance to balance wear", "Prefer standby to reduce mileage"]
        else if deviation < -20 then
          ["High priority for revenue service to balance usage"] else []
      (score, reasoning, alerts, recommendations)

/-- `StablingAgent._calculate_stabling_score`,
agents/src/agents/stabling_agent.py lines 98-127. -/
def calculate_stabling_score (_shunting_distance : ℚ) (shunting_time : ℚ)
    (is_blocking : Bool) (mode : PlanningMode) : ℚ :=
  if is_emergency_mode mode then
    if shunting_time ≤ 20 then 50
    else if shunting_time ≤ 30 then 40
    else 30
  else if is_blocking then 30
  else if shunting_time ≤ 5 then 100
  else if shunting_time ≤ 10 then 90
  else if shunting_time ≤ 15 then 75
  else if shunting_time ≤ 20 then 60
  else if shunting_time ≤ 30 then 40
  else 30

/-! ## Conflict resolver (agents/src/orchestrator/conflict_resolver.py) -/

/-- `TrainAnalysis` pydantic model, agents/src/models/schemas.py.  The
conflict detector reads only `train_id`, `train_number` and `score`; the
`reasoning`/`alerts`/`recommendations` payloads are irrelevant to it and are
omitted here. -/
structure TrainAnalysis where
  train_id : Int
  train_number : String
  score : ℚ
deriving DecidableEq, Repr

/-- The `agent_results: Dict[AgentType, List[TrainAnalysis]]` argument, as an
association list in the dict's insertion order. -/
def AgentResults : Type := List (AgentType × List TrainAnalysis)

/-- Python truthiness of an optional string (`None` and `""` are falsy). -/
def strTruthy : Option String → Bool
  | none => false
  | some s => s ≠ ""

/-- Python `opt or default` on an optional string. -/
def pyStrOr (o : Option String) (d : String) : String :=
  match o with
  | some s => if s = "" then d else s
  | none => d

/-- The `train_analyses` dict built at the top of
`ConflictResolver._check_train_conflicts` (lines 58-68): for each agent, the
first analysis with the given train id (the Python loop `break`s at the first
match), in the `agent_results` insertion order. -/
def collectTrainAnalyses (train_id : Int) (agent_results : AgentResults) :
    List (AgentType × TrainAnalysis) :=
  agent_results.filterMap
    (fun p => (p.2.find? (fun a => a.train_id == train_id)).map (fun a => (p.1, a)))

/-- The `train_number` accumulation in the same loop
(`if not train_number: train_number = analysis.train_number`). -/
def pickTrainNumber (l : List (AgentType × TrainAnalysis)) : Option String :=
  l.foldl (fun tn p => if strTruthy tn then tn else some p.2.train_number) none

/-- Dict lookup `train_analyses.get(agent_type)`. -/
def lookupAgent (l : List (AgentType × TrainAnalysis)) (a : AgentType) :
    Option TrainAnalysis :=
  (l.find? (fun p => p.1 == a)).map (·.2)

/-- `ConflictResolver._check_train_conflicts`,
agents/src/orchestrator/conflict_resolver.py lines 52-146.  Each of the four
rules appends a `ConflictAlert` constructed with an explicit `resolution`
string. -/
def check_train_conflicts (train_id : Int) (agent_results : AgentResults) :
    List ConflictAlert :=
  let train_analyses := collectTrainAnalyses train_id agent_results
  if train_analyses = [] then []
  else
    let tn := pyStrOr (pickTrainNumber train_analyses) ("T" ++ toString train_id)
    let fitness_analysis := lookupAgent train_analyses .fitness_certificate
    let job_card_analysis := lookupAgent train_analyses .job_card
    let branding_analysis := lookupAgent train_analyses .branding
    let mileage_analysis := lookupAgent train_analyses .mileage
    let cleaning_analysis := lookupAgent train_analyses .cleaning
    let conflict1 : List ConflictAlert :=
      match fitness_analysis, branding_analysis with
      | some fa, some ba =>
        if fa.score = 0 ∧ ba.score > 80 then
          [{ train_id := train_id, train_number := tn,
             conflict_type := "hard_constraint_vs_revenue",
             severity := .critical,
             description := "Expired fitness certificate blocks revenue service, but branding contract requires service",
             affected_agents := [.fitness_certificate, .branding],
             resolution := some "Hard constraint wins: Train cannot enter revenue service. Alert management about branding breach risk." }]
        else []
      | _, _ => []
    let conflict2 : List ConflictAlert :=
      match job_card_analysis, branding_analysis with
      | some ja, some ba =>
        if ja.score = 0 ∧ ba.score > 80 then
          [{ train_id := train_id, train_number := tn,
             conflict_type := "hard_constraint_vs_revenue",
             severity := .critical,
             description := "Blocking job card prevents revenue service, but branding contract requires service",
             affected_agents := [.job_card, .branding],
             resolution := some "Hard constraint wins: Train cannot enter revenue service. Alert management about branding breach risk." }]
        else []
      | _, _ => []
    let conflict3 : List ConflictAlert :=
      match mileage_analysis, branding_analysis with
      | some ma, some ba =>
        if ma.score < 50 ∧ ba.score > 90 then
          [{ train_id := train_id, train_number := tn,
             conflict_type := "optimization_vs_revenue",
             severity := .medium,
             description := "Mileage balancing recommends maintenance, but branding contract requires immediate service",
             affected_agents := [.mileage, .branding],
             resolution := some "Evaluate trade-off: Calculate cost of maintenance delay vs branding penalty. Choose lower total cost." }]
        else []
      | _, _ => []
    let conflict4 : List ConflictAlert :=
      match cleaning_analysis with
      | some ca =>
        let other_scores := (train_analyses.filter (fun p => p.1 ≠ AgentType.cleaning)).map
          (fun p => p.2.score)
        if ca.score < 50 ∧ other_scores ≠ [] ∧ other_scores.all (fun sc => decide (70 < sc)) then
          [{ train_id := train_id, train_number := tn,
             conflict_type := "quality_vs_readiness",
             severity := .low,
             description := "Cleaning overdue but train is otherwise ready for service",
             affected_agents := [.cleaning],
             resolution := some "Schedule cleaning before service or accept with documentation" }]
        else []
      | none => []
    conflict1 ++ conflict2 ++ conflict3 ++ conflict4

/-- The `all_train_ids` set of `ConflictResolver.detect_conflicts` (lines
39-43).  A Python `set` has no specified iteration order; it is modelled as
the duplicate-free list of ids in ascending order (for small non-negative
ints CPython iterates them ascending; no claim depends on the order). -/
def allTrainIds (agent_results : AgentResults) : List Int :=
  ((agent_results.foldl (fun acc p => acc ++ p.2.map (·.train_id)) []).dedup).mergeSort
    (fun a b => decide (a ≤ b))

/-- `ConflictResolver.detect_conflicts`, lines 25-50. -/
def detect_conflicts (agent_results : AgentResults) : List ConflictAlert :=
  (allTrainIds agent_results).foldl
    (fun conflicts tid => conflicts ++ check_train_conflicts tid agent_results) []

/-- `ConflictResolver._apply_resolution`, lines 173-188: documented as "just
document the resolution" and returns `True` unconditionally. -/
def apply_resolution (_conflict : ConflictAlert) : Bool := true

/-- One iteration of the `resolve_conflicts` loop (lines 163-169). -/
def resolve_step (resolved : List ConflictAlert) (c : ConflictAlert) :
    List ConflictAlert :=
  if strTruthy c.resolution then
    let c := if apply_resolution c then { c with severity := .low } else c
    resolved ++ [c]
  else resolved

/-- `ConflictResolver.resolve_conflicts`, lines 148-171: appends every
conflict whose `resolution` is truthy, downgrading its severity to LOW when
`_apply_resolution` reports success (it always does). -/
def resolve_conflicts (conflicts : List ConflictAlert) : List ConflictAlert :=
  conflicts.foldl resolve_step []

/-! ## Emergency workflow (agents/src/emergency/emergency_workflow.py) -/

/-- `stablingGeometry` JSON payload; `none` fields model absent keys. -/
structure StablingGeometry where
  shuntingDistance : Option ℚ := none
  shuntingTimeMinutes : Option ℚ := none
  blockingOtherTrains : Option Bool := none
deriving DecidableEq, Repr

/-- A cleaning slot record (`status` key, possibly absent). -/
structure CleaningSlot where
  status : Option String := none
deriving DecidableEq, Repr

/-- The comprehensive per-train payload returned by the backend's
`get_train_status` endpoint, with the keys the agents read. -/
structure TrainData where
  trainNumber : Option String := none
  fitnessCertificates : List Certificate := []
  jobCards : List JobCardData := []
  stablingGeometry : Option StablingGeometry := none
  cleaningSlots : List CleaningSlot := []
deriving DecidableEq, Repr

/-- An entry of the standby-train list handled by `EmergencyWorkflow.replan`
(raw JSON dicts; any key may be absent). -/
structure TrainRec where
  id : Option Int := none
  trainId : Option Int := none
  trainNumber : Option String := none
  status : Option String := none
deriving DecidableEq, Repr

/-- `FitnessCertificateAgent.calculate_score`, fitness_agent.py lines
203-208.  The body is `_, score, _, _ = self._evaluate_certificates(...)`,
but `_evaluate_certificates` returns `(score, reasoning, alerts,
recommendations)`: the unpacking binds the local name `score` to the SECOND
tuple component, the reasoning dict, which is what the function returns.
`today` stands for the `datetime.now()` default decision date. -/
def fitness_calculate_score (train_data : TrainData) (today : Int)
    (mode : PlanningMode) : CertReasoning :=
  (evaluate_certificates train_data.fitnessCertificates today mode).2.1

/-- `JobCardAgent.calculate_score`, job_card_agent.py lines 153-157: the same
`_, score, _, _` unpacking slip, returning the reasoning dict. -/
def job_card_calculate_score (train_data : TrainData) (mode : PlanningMode) :
    JobReasoning :=
  (evaluate_job_cards train_data.jobCards mode).2.1

/-- CPython semantics of `fitness_score > 0` when `fitness_score` is a dict:
`dict > int` raises `TypeError`, modelled as `Except.error`. -/
def pyGtCertReasoningInt (_r : CertReasoning) (_n : Int) : Except String Bool :=
  .error "TypeError: unorderable types: dict > int"

/-- CPython semantics of `job_card_score > 0` for the job-card reasoning
dict. -/
def pyGtJobReasoningInt (_r : JobReasoning) (_n : Int) : Except String Bool :=
  .error "TypeError: unorderable types: dict > int"

/-- CPython semantics of the f-string `f"{fitness_score:.1f}"` applied to a
dict: raises `TypeError` (unsupported format string). -/
def pyFormatFixed1Cert (_r : CertReasoning) : Except String String :=
  .error "TypeError: unsupported format string passed to dict"

/-- CPython semantics of `f"{job_card_score:.1f}"` applied to a dict. -/
def pyFormatFixed1Job (_r : JobReasoning) : Except String String :=
  .error "TypeError: unsupported format string passed to dict"

/-- `EmergencyWorkflow._calculate_readiness_time`, lines 164-189: base 10
minutes + shunting time (default 10) + a 5-minute penalty when the most
recent cleaning slot is not completed. -/
def calculate_readiness_time (train_data : TrainData) : ℚ :=
  let base_time : ℚ := 10
  let shunting_time : ℚ :=
    ((train_data.stablingGeometry.map (·.shuntingTimeMinutes)).join).getD 10
  let base_time := base_time + shunting_time
  match train_data.cleaningSlots with
  | [] => base_time
  | recent :: _ => if recent.status ≠ some "completed" then base_time + 5 else base_time

/-- The eligible-train dict appended by
`EmergencyWorkflow._quick_eligibility_check`.  `fitness_score` and
`job_card_score` hold the values returned by the agents' `calculate_score`
(which, per the unpacking slip above, are the reasoning dicts). -/
structure EligibleTrain where
  train_id : String
  readiness_minutes : ℚ
  fitness_score : CertReasoning
  job_card_score : JobReasoning
  confidence : ℚ
  reasoning : List String
deriving DecidableEq, Repr

/-- Python truthiness of an optional int (`None` and `0` are falsy), for
`train.get("id") or train.get("trainId")`. -/
def intTruthy : Option Int → Bool
  | none => false
  | some n => n ≠ 0

/-- `train_id = train.get("id") or train.get("trainId")` followed by
`if not train_id: continue` — the effective id, `none` when the loop skips. -/
def effectiveTrainId (t : TrainRec) : Option Int :=
  let v := if intTruthy t.id then t.id else t.trainId
  if intTruthy v then v else none

/-- The body of the `try` block in `_quick_eligibility_check` (lines
130-157) for one train: any raised exception is surfaced as `Except.error`
(caught by the enclosing `except`, which skips the train);
`Except.ok none` is the no-append path of a false `if` condition. -/
def quick_check_body (train : TrainRec) (train_data : TrainData) (tid : Int)
    (today : Int) (mode : PlanningMode) : Except String (Option EligibleTrain) := do
  let fitness_score := fitness_calculate_score train_data today mode
  let job_card_score := job_card_calculate_score train_data mode
  let b1 ← pyGtCertReasoningInt fitness_score 0
  if b1 then
    let b2 ← pyGtJobReasoningInt job_card_score 0
    if b2 then
      let readiness_minutes := calculate_readiness_time train_data
      let fstr ← pyFormatFixed1Cert fitness_score
      let jstr ← pyFormatFixed1Job job_card_score
      pure (some
        { train_id := pyStrOr train.trainNumber ("T" ++ toString tid)
          readiness_minutes := readiness_minutes
          fitness_score := fitness_score
          job_card_score := job_card_score
          confidence := 0.85
          reasoning := ["Fitness score: " ++ fstr, "Job card score: " ++ jstr,
            "Readiness: " ++ toString readiness_minutes ++ " minutes"] })
    else pure none
  else pure none

/-- One iteration of the `_quick_eligibility_check` loop: skip trains
without a truthy id (`continue`), skip trains whose check raised (`except`),
append the eligible entry otherwise. -/
def quick_check_step (fetch : Int → TrainData) (today : Int) (mode : PlanningMode)
    (eligible : List EligibleTrain) (train : TrainRec) : List EligibleTrain :=
  match effectiveTrainId train with
  | none => eligible
  | some tid =>
    match quick_check_body train (fetch tid) tid today mode with
    | .error _ => eligible
    | .ok none => eligible
    | .ok (some e) => eligible ++ [e]

/-- `EmergencyWorkflow._quick_eligibility_check`, lines 109-162.  `fetch`
models `backend_client.get_train_status`. -/
def quick_eligibility_check (fetch : Int → TrainData) (trains : List TrainRec)
    (today : Int) (mode : PlanningMode) : List EligibleTrain :=
  trains.foldl (quick_check_step fetch today mode) []

/-- The emergency plan dict assembled by `EmergencyWorkflow.replan`. -/
structure EmergencyPlan where
  replacement_train : String
  deployment_time_minutes : ℚ
  confidence_score : ℚ
  reasoning : List String
  execution_steps : List String
  fallback_options : List EligibleTrain
deriving DecidableEq, Repr

/-- The outcome dict of `EmergencyWorkflow.replan` (`success` flag with
either an `error` message or a `plan`). -/
inductive ReplanOutcome where
  | failure (error : String)
  | success (plan : EmergencyPlan)
deriving DecidableEq, Repr

/-- `EmergencyWorkflow._generate_execution_steps`, lines 191-214. -/
def generate_execution_steps (train_option : EligibleTrain)
    (withdrawn_train_id : String) : List String :=
  let replacement := train_option.train_id
  let readiness := train_option.readiness_minutes
  ["1. Withdraw train " ++ withdrawn_train_id ++ " from service",
   "2. Prepare replacement train " ++ replacement ++ " for deployment",
   "3. Complete shunting and positioning (estimated " ++ toString readiness ++ " minutes)",
   "4. Verify fitness certificates and job card status",
   "5. Deploy train " ++ replacement ++ " to replace " ++ withdrawn_train_id,
   "6. Monitor service restoration"]

/-- `EmergencyWorkflow.replan`, lines 43-107.  The Python checks emptiness of
the eligible list before sorting; sorting preserves emptiness, so matching on
the sorted list is equivalent.  The sort is Python's stable `list.sort` by
`readiness_minutes` ascending (default 999 for a missing key — the key is
always present here). -/
def replan (all_trains : List TrainRec) (fetch : Int → TrainData) (today : Int)
    (withdrawn_train_id : String) (mode : PlanningMode := .emergency) : ReplanOutcome :=
  let standby_trains := all_trains.filter
    (fun t => t.status = some "STANDBY" ∨ t.status = some "DEPOT_READY")
  if standby_trains = [] then .failure "No standby trains available"
  else
    let eligible_trains := quick_eligibility_check fetch standby_trains today mode
    match eligible_trains.mergeSort
        (fun a b => decide (a.readiness_minutes ≤ b.readiness_minutes)) with
    | [] => .failure "No eligible replacement trains found"
    | best_option :: rest =>
      .success
        { replacement_train := best_option.train_id
          deployment_time_minutes := best_option.readiness_minutes
          confidence_score := best_option.confidence
          reasoning := best_option.reasoning
          execution_steps := generate_execution_steps best_option withdrawn_train_id
          fallback_options := if rest.length + 1 > 1 then rest.take 3 else [] }

/-! ## Backend optimizer (backend/app/services/optimizer.py) -/

/-- `TrainStatus` enum, backend/app/models/trains.py. -/
inductive TrainStatus where
  | active
  | under_maintenance
  | out_of_service
  | decommissioned
deriving DecidableEq, Repr

/-- CP-SAT solver result status as consulted by `_create_plan`
(`cp_model.OPTIMAL` / `FEASIBLE` against everything else). -/
inductive SolverStatus where
  | optimal
  | feasible
  | infeasible
  | model_invalid
  | unknown
deriving DecidableEq, Repr

/-- `AssignmentType` enum.  Modelled from the spec: its defining module
(backend/app/models/plans.py) is not among the sources, only importers and
callers are; the variants are fixed by the category set of the spec and by
the string comparisons in optimizer.py (`"SERVICE"`, `"STANDBY"`,
`"IBL_MAINTENANCE"`, `"IBL_CLEANING"`, `"IBL_BOTH"`, `"OUT_OF_SERVICE"`). -/
inductive AssignmentType where
  | service
  | standby
  | ibl_maintenance
  | ibl_cleaning
  | ibl_both
  | out_of_service
deriving DecidableEq, Repr

/-- `JobStatus` enum, backend/app/models/job_cards.py (`open_job` transcribes
`OPEN`, a Lean keyword). -/
inductive BJobStatus where
  | open_job
  | in_progress
  | pending_parts
  | deferred
  | closed
  | cancelled
deriving DecidableEq, Repr

/-- `JobPriority` enum, backend/app/models/job_cards.py. -/
inductive BJobPriority where
  | critical
  | high
  | medium
  | low
  | routine
deriving DecidableEq, Repr

/-- A backend `JobCard` row, with `overdue` standing for the outcome of the
`job.is_overdue()` date comparison. -/
structure BackendJob where
  safety_critical : Bool := false
  requires_ibl : Bool := false
  priority : BJobPriority := .medium
  status : BJobStatus := .open_job
  overdue : Bool := false
deriving DecidableEq, Repr

/-- The status filter of the job query in `_evaluate_maintenance`
(`JobStatus.OPEN, IN_PROGRESS, PENDING_PARTS`). -/
def isOpenStatus : BJobStatus → Bool
  | .open_job => true
  | .in_progress => true
  | .pending_parts => true
  | _ => false

/-- Configuration constants of `TrainInductionOptimizer.__init__`
(lines 48-50): `self.trains_needed_for_service = 18`. -/
def trains_needed_for_service : Nat := 18

/-- `self.standby_count = 2` (minimum standby trains). -/
def standby_count_cfg : Nat := 2

/-- `self.max_ibl_capacity = 4`. -/
def max_ibl_capacity : Nat := 4

/-- The fitness fields computed by `_evaluate_fitness` (lines 190-230):
given validity of the three departments' certificates for tomorrow, the
fitness score is `(valid_count / 3) * 100` and `fitness_valid` is the
conjunction. -/
def evaluate_fitness_b (rolling_stock signalling telecom : Bool) : ℚ × Bool :=
  let valid_count : Nat := [rolling_stock, signalling, telecom].count true
  ((valid_count : ℚ) / 3 * 100, rolling_stock && signalling && telecom)

/-- The maintenance fields computed by `_evaluate_maintenance`
(lines 232-278). -/
structure MaintenanceEval where
  maintenance_score : ℚ
  maintenance_blocks : Bool
  must_ibl : Bool
deriving DecidableEq, Repr

/-- `_evaluate_maintenance`, backend/app/services/optimizer.py lines
232-278: safety-critical open jobs block service; overdue jobs deduct 20;
priorities deduct 30/15/5; `must_ibl` when some job requires IBL and nothing
blocks. -/
def evaluate_maintenance_b (all_jobs : List BackendJob) : MaintenanceEval :=
  let jobs := all_jobs.filter (fun j => isOpenStatus j.status)
  let blocking := jobs.any (fun j => j.safety_critical && !(j.status == .closed))
  let ibl_required := jobs.any (·.requires_ibl)
  let score_deduction : ℚ := jobs.foldl
    (fun acc j =>
      let acc := if j.overdue then acc + 20 else acc
      acc + (match j.priority with
        | .critical => 30
        | .high => 15
        | .medium => 5
        | _ => 0)) 0
  { maintenance_score := max 0 (100 - score_deduction)
    maintenance_blocks := blocking
    must_ibl := ibl_required && !blocking }

/-- The per-train score dict of `_calculate_train_scores` (lines 126-188),
with the fields the optimizer consumes; defaults as initialized there. -/
structure TrainScores where
  fitness_score : ℚ := 100
  fitness_valid : Bool := true
  maintenance_score : ℚ := 100
  maintenance_blocks : Bool := false
  branding_score : ℚ := 0
  branding_urgency : ℚ := 0
  mileage_score : ℚ := 100
  cleaning_score : ℚ := 100
  cleaning_required : Bool := false
  shunting_cost : ℚ := 0
  position_score : ℚ := 100
  overall_service_score : ℚ := 0
  can_serve : Bool := true
  must_ibl : Bool := false
deriving DecidableEq, Repr

/-- The eligibility assignment of `_calculate_train_scores` lines 182-186:
`can_serve = fitness_valid and not maintenance_blocks and status == ACTIVE`. -/
def can_serve_calc (fitness_valid maintenance_blocks : Bool)
    (status : TrainStatus) : Bool :=
  fitness_valid && !maintenance_blocks && (status == .active)

/-- `_calculate_overall_score` (lines 392-407) with the constructor's soft
weights (reliability 100 on fitness and maintenance, branding 80, mileage 50,
cleaning 40, shunting 30; total weight 300).  When `_calculate_train_scores`
calls it, the `can_serve` field still holds its initial `True`. -/
def calculate_overall_score (s : TrainScores) : ℚ :=
  if !s.can_serve then 0
  else
    (s.fitness_score * 100 + s.maintenance_score * 100 + s.branding_score * 80 +
      s.mileage_score * 50 + s.cleaning_score * 40 + s.position_score * 30) / 300

/-- A backend `Train` row (`id` primary key and lifecycle status). -/
structure BackendTrain where
  id : Nat
  status : TrainStatus := .active
deriving DecidableEq, Repr

/-- The four binary decision variables per train created by
`_create_variables` (lines 409-428). -/
structure CatVars where
  service : Bool := false
  standby : Bool := false
  ibl : Bool := false
  oos : Bool := false
deriving DecidableEq, Repr

/-- The per-train constraint `sum(assignments[train.id].values()) == 1`
added in `_create_variables` (line 423). -/
def exactlyOne (v : CatVars) : Prop :=
  v.service.toNat + v.standby.toNat + v.ibl.toNat + v.oos.toNat = 1

instance (v : CatVars) : Decidable (exactlyOne v) := by
  unfold exactlyOne
  infer_instance

/-- `service_count = sum(assignments[t.id]["service"] for t in trains)`. -/
def serviceVarCount (trains : List BackendTrain) (assign : Nat → CatVars) : Nat :=
  (trains.filter (fun t => (assign t.id).service)).length

/-- Standby-variable count of `_add_hard_constraints`. -/
def standbyVarCount (trains : List BackendTrain) (assign : Nat → CatVars) : Nat :=
  (trains.filter (fun t => (assign t.id).standby)).length

/-- IBL-variable count of `_add_hard_constraints`. -/
def iblVarCount (trains : List BackendTrain) (assign : Nat → CatVars) : Nat :=
  (trains.filter (fun t => (assign t.id).ibl)).length

/-- The hard constraints of the CP-SAT model: the exactly-one constraints of
`_create_variables` plus everything `_add_hard_constraints` (lines 430-466)
adds — the service-count band `18 - 2 .. 18 + 2`, minimum standby `2`, IBL
capacity `4`, the SERVICE/STANDBY exclusion of trains that cannot serve, and
the forced OUT_OF_SERVICE variable for out-of-service trains.  A satisfying
`assign` is exactly a feasible solution of the model. -/
def hard_constraints (trains : List BackendTrain) (scores : Nat → TrainScores)
    (assign : Nat → CatVars) : Prop :=
  (∀ t ∈ trains, exactlyOne (assign t.id)) ∧
  trains_needed_for_service - 2 ≤ serviceVarCount trains assign ∧
  serviceVarCount trains assign ≤ trains_needed_for_service + 2 ∧
  standby_count_cfg ≤ standbyVarCount trains assign ∧
  iblVarCount trains assign ≤ max_ibl_capacity ∧
  (∀ t ∈ trains, (scores t.id).can_serve = false →
    (assign t.id).service = false ∧ (assign t.id).standby = false) ∧
  (∀ t ∈ trains, t.status = .out_of_service → (assign t.id).oos = true)

instance (trains : List BackendTrain) (scores : Nat → TrainScores)
    (assign : Nat → CatVars) : Decidable (hard_constraints trains scores assign) := by
  unfold hard_constraints
  infer_instance

/-- The solution readout of `_create_plan` (lines 551-567): the `if/elif`
chain over the solver values, with the IBL assignment split by
`cleaning_required`. -/
def solution_assignments (trains : List BackendTrain) (scores : Nat → TrainScores)
    (assign : Nat → CatVars) : List (Nat × AssignmentType) :=
  trains.map (fun t =>
    if (assign t.id).service then (t.id, AssignmentType.service)
    else if (assign t.id).standby then (t.id, AssignmentType.standby)
    else if (assign t.id).ibl then
      (t.id, if (scores t.id).cleaning_required then AssignmentType.ibl_both
        else AssignmentType.ibl_maintenance)
    else (t.id, AssignmentType.out_of_service))

/-- `sorted(trains, key=lambda t: scores[t.id]["overall_service_score"],
reverse=True)` — Python's stable sort, descending. -/
def sortTrainsByScore (trains : List BackendTrain) (scores : Nat → TrainScores) :
    List BackendTrain :=
  trains.mergeSort (fun a b =>
    decide ((scores b.id).overall_service_score ≤ (scores a.id).overall_service_score))

/-- One iteration of the `_create_heuristic_assignments` loop (lines
721-748), threading `(service_count, standby_count, ibl_count)` and the
assignments created so far. -/
def heuristic_step (scores : Nat → TrainScores)
    (st : Nat × Nat × Nat × List (Nat × AssignmentType)) (t : BackendTrain) :
    Nat × Nat × Nat × List (Nat × AssignmentType) :=
  let service_count := st.1
  let standby_count := st.2.1
  let ibl_count := st.2.2.1
  let acc := st.2.2.2
  let score := scores t.id
  if !score.can_serve then
    (service_count, standby_count, ibl_count, acc ++ [(t.id, AssignmentType.out_of_service)])
  else if service_count < trains_needed_for_service then
    (service_count + 1, standby_count, ibl_count, acc ++ [(t.id, AssignmentType.service)])
  else if standby_count < standby_count_cfg then
    (service_count, standby_count + 1, ibl_count, acc ++ [(t.id, AssignmentType.standby)])
  else if score.must_ibl ∧ ibl_count < max_ibl_capacity then
    (service_count, standby_count, ibl_count + 1, acc ++ [(t.id, AssignmentType.ibl_maintenance)])
  else if score.cleaning_required ∧ ibl_count < max_ibl_capacity then
    (service_count, standby_count, ibl_count + 1, acc ++ [(t.id, AssignmentType.ibl_cleaning)])
  else
    (service_count, standby_count + 1, ibl_count, acc ++ [(t.id, AssignmentType.standby)])

/-- `_create_heuristic_assignments`, lines 707-748: greedy fallback over the
score-sorted train list. -/
def create_heuristic_assignments (trains : List BackendTrain)
    (scores : Nat → TrainScores) : List (Nat × AssignmentType) :=
  ((sortTrainsByScore trains scores).foldl (heuristic_step scores) (0, 0, 0, [])).2.2.2

/-- The assignment list a plan ends up with in `_create_plan`: the solver
solution when the status is OPTIMAL or FEASIBLE, the greedy heuristic
otherwise (lines 551-573). -/
def plan_assignments (status : SolverStatus) (trains : List BackendTrain)
    (scores : Nat → TrainScores) (assign : Nat → CatVars) :
    List (Nat × AssignmentType) :=
  if status = .optimal ∨ status = .feasible then solution_assignments trains scores assign
  else create_heuristic_assignments trains scores

/-- `plan.hard_constraints_violated = 0 if status in [OPTIMAL, FEASIBLE]
else 1` (line 623). -/
def hard_constraints_violated (status : SolverStatus) : Nat :=
  if status = .optimal ∨ status = .feasible then 0 else 1

/-- Count of one assignment type in a plan's assignment list (the
`plan.trains_in_service` / `trains_standby` / `trains_out_of_service`
queries of lines 591-610). -/
def countType (l : List (Nat × AssignmentType)) (ty : AssignmentType) : Nat :=
  (l.filter (fun p => p.2 == ty)).length

/-- `plan.trains_ibl`: count of the three IBL assignment types
(lines 599-606). -/
def countIblTypes (l : List (Nat × AssignmentType)) : Nat :=
  (l.filter (fun p =>
    p.2 == AssignmentType.ibl_maintenance || p.2 == AssignmentType.ibl_cleaning ||
    p.2 == AssignmentType.ibl_both)).length

/-! ## Helper definitions and lemmas for the claims -/

/-- A total score map (all six agents reported). -/
def totalScores (f : AgentType → ℚ) : AgentScores := fun a => some (f a)

/-- Update one domain's score, leaving the other five fixed. -/
def updateScore (s : AgentType → ℚ) (d : AgentType) (v : ℚ) : AgentType → ℚ :=
  fun a => if a = d then v else s a

/-- The sum of the six-domain weight vector of a mode. -/
def weight_vector_sum (mode : PlanningMode) : ℚ :=
  (agentOrder.map (get_agent_weights mode)).sum

/-- The composite formula in the spec's phrasing: the weighted sum of the six
domain scores, plus the emergency readiness bonus outside the weighted sum,
zeroed entirely when a hard-constraint domain (fitness or job-card) is 0,
halved when the fitness score is below 60, clamped to [0, 100]. -/
def composite_formula_spec (s : AgentScores) (mode : PlanningMode) (b : ℚ) : ℚ :=
  if scoreGetD s .fitness_certificate 100 = 0 ∨ scoreGetD s .job_card 100 = 0 then 0
  else
    let weighted : ℚ :=
      scoreGetD s .fitness_certificate 50 * get_agent_weights mode .fitness_certificate +
      scoreGetD s .job_card 50 * get_agent_weights mode .job_card +
      scoreGetD s .branding 50 * get_agent_weights mode .branding +
      scoreGetD s .mileage 50 * get_agent_weights mode .mileage +
      scoreGetD s .cleaning 50 * get_agent_weights mode .cleaning +
      scoreGetD s .stabling 50 * get_agent_weights mode .stabling
    let total : ℚ := weighted + (if mode = .emergency ∨ mode = .crisis then b else 0)
    let total : ℚ := if scoreGetD s .fitness_certificate 100 < 60 then total / 2 else total
    max 0 (min 100 total)

/-- `calculate_composite_score` agrees with the spec-shaped closed form. -/
theorem composite_closed_form (s : AgentScores) (mode : PlanningMode) (b : ℚ) :
    calculate_composite_score s mode b = composite_formula_spec s mode b := by
  simp only [calculate_composite_score, composite_formula_spec]
  rw [weighted_sum_eq]
  by_cases h1 : scoreGetD s .fitness_certificate 100 = 0
  · simp [h1]
  · by_cases h2 : scoreGetD s .job_card 100 = 0
    · simp [h1, h2]
    · simp only [h1, h2, if_false, or_self, if_neg (by tauto : ¬ (scoreGetD s .fitness_certificate 100 = 0 ∨ scoreGetD s .job_card 100 = 0))]
      split_ifs <;> ring_nf

/-- The composite on a total score map in NORMAL mode, with the weights
evaluated. -/
theorem composite_normal_total (f : AgentType → ℚ) (b : ℚ) :
    calculate_composite_score (totalScores f) .normal b =
      if f .fitness_certificate = 0 then 0
      else if f .job_card = 0 then 0
      else
        max 0 (min 100
          (if f .fitness_certificate < 60 then
            (f .fitness_certificate * 0.25 + f .job_card * 0.20 + f .branding * 0.15 +
              f .mileage * 0.15 + f .cleaning * 0.10 + f .stabling * 0.15) * 0.5
          else
            f .fitness_certificate * 0.25 + f .job_card * 0.20 + f .branding * 0.15 +
              f .mileage * 0.15 + f .cleaning * 0.10 + f .stabling * 0.15)) := by
  unfold calculate_composite_score
  rw [weighted_sum_eq]
  simp [scoreGetD, totalScores, get_agent_weights]

/-- Pointwise monotonicity of the composite in the six domain scores,
NORMAL mode. -/
theorem composite_mono_pointwise (f g : AgentType → ℚ) (b : ℚ)
    (hf : ∀ a, 0 ≤ f a) (hfg : ∀ a, f a ≤ g a) :
    calculate_composite_score (totalScores f) .normal b ≤
      calculate_composite_score (totalScores g) .normal b := by
  rw [composite_normal_total, composite_normal_total]
  have h1 := hfg .fitness_certificate
  have h2 := hfg .job_card
  have h3 := hfg .branding
  have h4 := hfg .mileage
  have h5 := hfg .cleaning
  have h6 := hfg .stabling
  have k1 := hf .fitness_certificate
  have k2 := hf .job_card
  have k3 := hf .branding
  have k4 := hf .mileage
  have k5 := hf .cleaning
  have k6 := hf .stabling
  by_cases hgf : g .fitness_certificate = 0
  · have : f .fitness_certificate = 0 := le_antisymm (hgf ▸ h1) k1
    simp [this, hgf]
  · by_cases hgj : g .job_card = 0
    · have hfj : f .job_card = 0 := le_antisymm (hgj ▸ h2) k2
      simp [hfj, hgj, hgf]
    · rw [if_neg hgf, if_neg hgj]
      by_cases hff : f .fitness_certificate = 0
      · rw [if_pos hff]
        exact le_max_left _ _
      · rw [if_neg hff]
        by_cases hfj : f .job_card = 0
        · rw [if_pos hfj]
          exact le_max_left _ _
        · rw [if_neg hfj]
          refine max_le_max le_rfl (min_le_min le_rfl ?_)
          split_ifs with hlt1 hlt2 hlt2 <;> nlinarith

/-- C3 counterexample: the EMERGENCY/CRISIS six-domain weight vector of
`get_agent_weights` sums to 0.73, not to 1.0 as the claim states. -/
theorem C3_counterexample :
    weight_vector_sum .emergency = 73 / 100 ∧ ¬ weight_vector_sum .emergency = 1 := by
  have h : weight_vector_sum .emergency = 73 / 100 := by
    simp [weight_vector_sum, agentOrder, get_agent_weights]
    norm_num
  exact ⟨h, by rw [h]; norm_num⟩

/-- C3 (amended): the NORMAL weight vector (0.25, 0.20, 0.15, 0.15, 0.10,
0.15) sums to 1.0 while the EMERGENCY/CRISIS vector (0.30, 0.25, 0.05, 0.05,
0.03, 0.05) sums to 0.73; the readiness bonus lies in [0, 27] and is added
outside the weighted sum (before the halving and the clamp); and the
composite equals the spec formula: Σ(domain_score × mode_weight) plus the
emergency bonus, zeroed when fitness or job-card is 0, halved when the
fitness score is below 60, clamped to [0, 100]. -/
theorem C3_composite_weights :
    weight_vector_sum .normal = 1 ∧
    weight_vector_sum .emergency = 73 / 100 ∧
    weight_vector_sum .crisis = 73 / 100 ∧
    (∀ m : Int, 0 ≤ calculate_readiness_bonus m ∧ calculate_readiness_bonus m ≤ 27) ∧
    (∀ (s : AgentScores) (mode : PlanningMode) (b : ℚ),
      calculate_composite_score s mode b = composite_formula_spec s mode b) := by
  refine ⟨?_, ?_, ?_, ?_, fun s mode b => composite_closed_form s mode b⟩
  · simp [weight_vector_sum, agentOrder, get_agent_weights]
    norm_num
  · simp [weight_vector_sum, agentOrder, get_agent_weights]
    norm_num
  · simp [weight_vector_sum, agentOrder, get_agent_weights]
    norm_num
  · intro m
    unfold calculate_readiness_bonus
    split_ifs <;> norm_num

/-- C5: under NORMAL mode the composite score is monotonic non-decreasing in
each individual domain score, the other five domain scores and the mode held
fixed — including across the fitness-below-60 halving boundary and the
hard-zero cases at fitness = 0 or job-card = 0. -/
theorem C5_composite_monotone (s : AgentType → ℚ) (d : AgentType) (v v' b : ℚ)
    (hs0 : ∀ a, 0 ≤ s a) (_hs100 : ∀ a, s a ≤ 100)
    (hv0 : 0 ≤ v) (hvv : v ≤ v') (_hv100 : v' ≤ 100) :
    calculate_composite_score (totalScores (updateScore s d v)) .normal b ≤
      calculate_composite_score (totalScores (updateScore s d v')) .normal b := by
  refine composite_mono_pointwise _ _ b (fun a => ?_) (fun a => ?_)
  · unfold updateScore
    split_ifs
    · exact hv0
    · exact hs0 a
  · unfold updateScore
    split_ifs
    · exact hvv
    · exact le_rfl

/-- Witness for C5 at a concrete input. -/
theorem C5_composite_monotone_witness :
    calculate_composite_score (totalScores (updateScore (fun _ => 50) .branding 10)) .normal 0 ≤
      calculate_composite_score (totalScores (updateScore (fun _ => 50) .branding 20)) .normal 0 :=
  C5_composite_monotone (fun _ => 50) .branding 10 20 0
    (fun _ => by norm_num) (fun _ => by norm_num) (by norm_num) (by norm_num) (by norm_num)

/-- C10: In EMERGENCY or CRISIS mode the stabling score depends only on the
shunting time (50 if ≤ 20 minutes, 40 if ≤ 30, else 30): two vehicles
differing only in the blocking-other-vehicles flag receive identical
stabling scores; in NORMAL mode a blocking vehicle scores 30 regardless of
shunting time. -/
theorem C10_stabling_blocking_noninterference :
    (∀ (d t : ℚ) (b b' : Bool),
      calculate_stabling_score d t b .emergency = calculate_stabling_score d t b' .emergency) ∧
    (∀ (d t : ℚ) (b b' : Bool),
      calculate_stabling_score d t b .crisis = calculate_stabling_score d t b' .crisis) ∧
    (∀ (d t : ℚ) (b : Bool),
      calculate_stabling_score d t b .emergency =
        (if t ≤ 20 then 50 else if t ≤ 30 then 40 else 30)) ∧
    (∀ (d t : ℚ), calculate_stabling_score d t true .normal = 30) := by
  refine ⟨fun d t b b' => ?_, fun d t b b' => ?_, fun d t b => ?_, fun d t => ?_⟩ <;>
    simp [calculate_stabling_score, is_emergency_mode]

/-- The deviation of the C4 scenario evaluates to exactly +30% and the
NORMAL banding maps it to 30. -/
theorem mileage_at_plus30_eq :
    (evaluate_mileage [{ cumulativeMileage := 65000 }] 50000 .normal).1 = 30 := by
  simp [evaluate_mileage, calculate_mileage_score, is_emergency_mode]
  norm_num

/-- C4 counterexample: a vehicle at 65,000 km against a 50,000 km fleet
average (exactly +30% deviation) receives mileage score 30 under NORMAL, not
0 as the claim states (the banding gives 0 only strictly above 30%). -/
theorem C4_counterexample :
    (evaluate_mileage [{ cumulativeMileage := 65000 }] 50000 .normal).1 = 30 ∧
    ¬ (evaluate_mileage [{ cumulativeMileage := 65000 }] 50000 .normal).1 = 0 := by
  refine ⟨mileage_at_plus30_eq, ?_⟩
  rw [mileage_at_plus30_eq]
  norm_num

/-- C4 (amended): under NORMAL mode the mileage score is 0 only for
deviations strictly greater than +30% of the fleet average; at exactly +30%
(65,000 km against a 50,000 km average in exact arithmetic) the banding
gives 30; under EMERGENCY/CRISIS the mileage evaluator returns a neutral 50
unconditionally. -/
theorem C4_mileage_banding :
    (∀ dev : ℚ, 30 < dev → calculate_mileage_score dev .normal = 0) ∧
    calculate_mileage_score 30 .normal = 30 ∧
    (evaluate_mileage [{ cumulativeMileage := 65000 }] 50000 .normal).1 = 30 ∧
    (∀ (md : List MileageRecord) (avg : ℚ), (evaluate_mileage md avg .emergency).1 = 50) ∧
    (∀ (md : List MileageRecord) (avg : ℚ), (evaluate_mileage md avg .crisis).1 = 50) := by
  refine ⟨?_, ?_, ?_, ?_, ?_⟩
  · intro dev h
    have habs : |dev| = dev := abs_of_pos (by linarith)
    have hmode : is_emergency_mode .normal = false := rfl
    unfold calculate_mileage_score
    simp only [hmode, Bool.false_eq_true, if_false, habs]
    split_ifs <;> first | rfl | linarith
  · simp [calculate_mileage_score, is_emergency_mode]
    norm_num
  · exact mileage_at_plus30_eq
  · intro md avg
    match md with
    | [] => simp [evaluate_mileage]
    | latest :: rest =>
      by_cases h : avg = 0 <;>
        simp [evaluate_mileage, calculate_mileage_score, is_emergency_mode, h]
  · intro md avg
    match md with
    | [] => simp [evaluate_mileage]
    | latest :: rest =>
      by_cases h : avg = 0 <;>
        simp [evaluate_mileage, calculate_mileage_score, is_emergency_mode, h]

/-- Witness for C4 at concrete inputs. -/
theorem C4_mileage_banding_witness :
    calculate_mileage_score 31 .normal = 0 ∧ (evaluate_mileage [] 7 .emergency).1 = 50 :=
  ⟨C4_mileage_banding.1 31 (by norm_num), C4_mileage_banding.2.2.2.1 [] 7⟩

/-- The three certificates of the C2 scenario, each expiring exactly 2 days
after the decision date (taken as day 0). -/
def certs_two_days : List Certificate :=
  [{ department := "rolling_stock", expiry := some 2 },
   { department := "signalling", expiry := some 2 },
   { department := "telecom", expiry := some 2 }]

/-- C2 counterexample: in EMERGENCY mode a certificate with 2 days remaining
is classified "expiring_soon", not "valid" (the claim says days ≥ 1 counts
as valid), and a vehicle whose three certificates all have exactly 2 days
remaining scores 0 — not all-valid 100 — so it is not eligible under
EMERGENCY either. -/
theorem C2_counterexample :
    certStatus 2 .emergency = "expiring_soon" ∧
    ¬ certStatus 2 .emergency = "valid" ∧
    (evaluate_certificates certs_two_days 0 .emergency).1 = 0 ∧
    ¬ (evaluate_certificates certs_two_days 0 .emergency).1 = 100 := by
  have h1 : certStatus 2 .emergency = "expiring_soon" := rfl
  have h2 : (evaluate_certificates certs_two_days 0 .emergency).1 = 0 := by
    simp [evaluate_certificates, certs_two_days, classifyCertificates, days_until_date,
      is_emergency_mode, calculate_score_from_status]
  refine ⟨h1, by rw [h1]; simp, h2, by rw [h2]; norm_num⟩

/-- C2 (amended): the mode-dependent threshold (3 days in NORMAL, 1 in
EMERGENCY/CRISIS) only separates the "expiring_imminent" label from
"expiring_soon"; a certificate is classified "valid" iff it has at least 7
days remaining, in every mode, and "expired" iff days remaining < 0; a
vehicle whose three certificates all have exactly 2 days remaining scores 0
(ineligible) in NORMAL and EMERGENCY and CRISIS alike. -/
theorem C2_certificate_validity :
    (∀ (days : Int) (mode : PlanningMode), certStatus days mode = "valid" ↔ 7 ≤ days) ∧
    (∀ (days : Int) (mode : PlanningMode), certStatus days mode = "expired" ↔ days < 0) ∧
    (∀ days : Int, certStatus days .normal = "expiring_imminent" ↔ 0 ≤ days ∧ days < 3) ∧
    (∀ days : Int, certStatus days .emergency = "expiring_imminent" ↔ 0 ≤ days ∧ days < 1) ∧
    (∀ mode : PlanningMode, (evaluate_certificates certs_two_days 0 mode).1 = 0) := by
  have hn : ∀ days : Int, certStatus days .normal =
      if days < 0 then "expired" else if days < 3 then "expiring_imminent"
      else if days < 7 then "expiring_soon" else "valid" := fun days => rfl
  have he : ∀ days : Int, certStatus days .emergency =
      if days < 0 then "expired" else if days < 1 then "expiring_imminent"
      else if days < 7 then "expiring_soon" else "valid" := fun days => rfl
  have hc : ∀ days : Int, certStatus days .crisis =
      if days < 0 then "expired" else if days < 1 then "expiring_imminent"
      else if days < 7 then "expiring_soon" else "valid" := fun days => rfl
  refine ⟨?_, ?_, ?_, ?_, ?_⟩
  · intro days mode
    cases mode <;> [rw [hn]; rw [he]; rw [hc]] <;> split_ifs <;> simp_all <;> omega
  · intro days mode
    cases mode <;> [rw [hn]; rw [he]; rw [hc]] <;> split_ifs <;> simp_all
  · intro days
    rw [hn]
    split_ifs <;> simp_all
  · intro days
    rw [he]
    split_ifs <;> simp_all
  · intro mode
    match mode with
    | .normal =>
      simp [evaluate_certificates, certs_two_days, classifyCertificates, days_until_date,
        is_emergency_mode, calculate_score_from_status]
    | .emergency =>
      simp [evaluate_certificates, certs_two_days, classifyCertificates, days_until_date,
        is_emergency_mode, calculate_score_from_status]
    | .crisis =>
      simp [evaluate_certificates, certs_two_days, classifyCertificates, days_until_date,
        is_emergency_mode, calculate_score_from_status]

/-- Membership in a fold that only appends: the element was in the
accumulator or comes from one of the appended lists. -/
theorem mem_foldl_append {α β : Type} (f : β → List α) (l : List β) :
    ∀ (acc : List α) (c : α), c ∈ l.foldl (fun a b => a ++ f b) acc →
      c ∈ acc ∨ ∃ b ∈ l, c ∈ f b := by
  induction l with
  | nil => intro acc c h; exact Or.inl h
  | cons x xs ih =>
    intro acc c h
    rcases ih (acc ++ f x) c h with h' | ⟨b, hb, hc⟩
    · rcases List.mem_append.mp h' with h'' | h''
      · exact Or.inl h''
      · exact Or.inr ⟨x, List.mem_cons_self x xs, h''⟩
    · exact Or.inr ⟨b, List.mem_cons_of_mem x hb, hc⟩

/-- Every conflict created by `_check_train_conflicts` carries a truthy
resolution string. -/
theorem check_train_conflicts_resolution (tid : Int) (r : AgentResults) :
    ∀ c ∈ check_train_conflicts tid r, strTruthy c.resolution = true := by
  intro c hc
  simp only [check_train_conflicts] at hc
  split at hc
  · simp at hc
  · simp only [List.mem_append] at hc
    rcases hc with ((h | h) | h) | h <;>
      (repeat' split at h) <;> simp_all [strTruthy]

/-- The resolve loop maps every listed conflict (all of them truthy) to its
LOW-severity copy. -/
theorem resolve_foldl_eq (l : List ConflictAlert) :
    ∀ acc, (∀ c ∈ l, strTruthy c.resolution = true) →
      l.foldl resolve_step acc =
        acc ++ l.map (fun c => { c with severity := ConflictSeverity.low }) := by
  induction l with
  | nil => intro acc _; simp
  | cons x xs ih =>
    intro acc h
    have hx : strTruthy x.resolution = true := h x (List.mem_cons_self x xs)
    rw [List.foldl_cons]
    rw [show resolve_step acc x = acc ++ [{ x with severity := ConflictSeverity.low }] from by
      simp [resolve_step, hx, apply_resolution]]
    rw [ih _ (fun c hc => h c (List.mem_cons_of_mem x hc))]
    simp

/-- C9 counterexample: on a concrete input (train 1: fitness score 0,
branding score 90) the conflict detector produces a conflict whose
`resolution` field is already set — it is not `None` as the claim states. -/
theorem C9_counterexample :
    (detect_conflicts
        [(.fitness_certificate, [{ train_id := 1, train_number := "T1", score := 0 }]),
         (.branding, [{ train_id := 1, train_number := "T1", score := 90 }])]).map
        (fun c => c.resolution) =
      [some "Hard constraint wins: Train cannot enter revenue service. Alert management about branding breach risk."] := by
  have hids : allTrainIds
      [(.fitness_certificate, [{ train_id := 1, train_number := "T1", score := 0 }]),
       (.branding, [{ train_id := 1, train_number := "T1", score := 90 }])] = [1] := by
    simp [allTrainIds]
  simp only [detect_conflicts, hids, List.foldl_cons, List.foldl_nil, List.nil_append]
  decide

/-- C9 (amended): the conflict detector itself attaches a (non-empty)
resolution string to every conflict it creates; the resolve step keeps every
conflict whose resolution is set — in particular every detected conflict —
downgrading its severity to LOW and deleting none of them. -/
theorem C9_detection_resolution :
    (∀ (r : AgentResults) (c : ConflictAlert),
      c ∈ detect_conflicts r → strTruthy c.resolution = true) ∧
    (∀ conflicts : List ConflictAlert,
      (∀ c ∈ conflicts, strTruthy c.resolution = true) →
      resolve_conflicts conflicts =
        conflicts.map (fun c => { c with severity := ConflictSeverity.low })) := by
  constructor
  · intro r c hc
    unfold detect_conflicts at hc
    rcases mem_foldl_append (fun tid => check_train_conflicts tid r) _ _ _ hc with h | ⟨tid, _, hc'⟩
    · simp at h
    · exact check_train_conflicts_resolution tid r c hc'
  · intro conflicts h
    unfold resolve_conflicts
    rw [resolve_foldl_eq conflicts [] h]
    simp

/-- Witness for C9 at a concrete input: a detected conflict has a truthy
resolution, and resolving a one-element list keeps the conflict and
downgrades its severity. -/
theorem C9_detection_resolution_witness :
    strTruthy
        (ConflictAlert.resolution
          { train_id := 1, train_number := "T1",
            conflict_type := "hard_constraint_vs_revenue",
            severity := ConflictSeverity.critical,
            description := "Expired fitness certificate blocks revenue service, but branding contract requires service",
            affected_agents := [.fitness_certificate, .branding],
            resolution := some "Hard constraint wins: Train cannot enter revenue service. Alert management about branding breach risk." }) = true ∧
    resolve_conflicts
        [{ train_id := 1, train_number := "T1",
           conflict_type := "hard_constraint_vs_revenue",
           severity := ConflictSeverity.critical,
           description := "Expired fitness certificate blocks revenue service, but branding contract requires service",
           affected_agents := [.fitness_certificate, .branding],
           resolution := some "Hard constraint wins: Train cannot enter revenue service. Alert management about branding breach risk." }] =
      [{ train_id := 1, train_number := "T1",
         conflict_type := "hard_constraint_vs_revenue",
         severity := ConflictSeverity.low,
         description := "Expired fitness certificate blocks revenue service, but branding contract requires service",
         affected_agents := [.fitness_certificate, .branding],
         resolution := some "Hard constraint wins: Train cannot enter revenue service. Alert management about branding breach risk." }] := by
  constructor
  · exact C9_detection_resolution.1
      [(.fitness_certificate, [{ train_id := 1, train_number := "T1", score := 0 }]),
       (.branding, [{ train_id := 1, train_number := "T1", score := 90 }])]
      _ (by
        have hids : allTrainIds
            [(.fitness_certificate, [{ train_id := 1, train_number := "T1", score := 0 }]),
             (.branding, [{ train_id := 1, train_number := "T1", score := 90 }])] = [1] := by
          simp [allTrainIds]
        simp only [detect_conflicts, hids, List.foldl_cons, List.foldl_nil, List.nil_append]
        decide)
  · rw [C9_detection_resolution.2 _ (by decide)]
    decide

/-! ## Claim C8: the emergency eligibility check -/

/-- The `try` body of `_quick_eligibility_check` always raises: the agents'
`calculate_score` methods return the reasoning dict (tuple-unpack slip), and
CPython's `dict > int` comparison raises `TypeError`. -/
theorem quick_check_body_error (train : TrainRec) (td : TrainData)
    (tid today : Int) (mode : PlanningMode) :
    quick_check_body train td tid today mode =
      .error "TypeError: unorderable types: dict > int" := rfl

/-- Consequently every train is skipped by the enclosing `except`. -/
theorem quick_eligibility_check_empty (fetch : Int → TrainData)
    (trains : List TrainRec) (today : Int) (mode : PlanningMode) :
    quick_eligibility_check fetch trains today mode = [] := by
  unfold quick_eligibility_check
  have aux : ∀ (l : List TrainRec) (acc : List EligibleTrain),
      l.foldl (quick_check_step fetch today mode) acc = acc := by
    intro l
    induction l with
    | nil => intro acc; rfl
    | cons t ts ih =>
      intro acc
      rw [List.foldl_cons]
      have hstep : quick_check_step fetch today mode acc t = acc := by
        unfold quick_check_step
        cases h : effectiveTrainId t <;> simp [quick_check_body_error]
      rw [hstep]
      exact ih acc
  exact aux trains []

/-- The certificates of the C8 failing input: all three departments valid
for 30 more days. -/
def good_certs : List Certificate :=
  [{ department := "rolling_stock", expiry := some 30 },
   { department := "signalling", expiry := some 30 },
   { department := "telecom", expiry := some 30 }]

/-- The backend payload of the C8 failing input: a fully healthy standby
train (valid certificates, no job cards). -/
def good_train_data : TrainData :=
  { trainNumber := some "T7", fitnessCertificates := good_certs }

/-- The standby-list record of the C8 failing input. -/
def good_train_rec : TrainRec :=
  { id := some 7, trainNumber := some "T7", status := some "STANDBY" }

/-- C8: the emergency replacement path can never keep any vehicle.  The
agents' `calculate_score` methods unpack `_, score, _, _` from a
`(score, reasoning, alerts, recommendations)` tuple, binding the reasoning
dict; the `fitness_score > 0` comparison then raises `TypeError`, the broad
`except` skips the train, so `_quick_eligibility_check` always returns `[]`
and `replan` reports "No eligible replacement trains found" whenever the
standby pool is non-empty — even for a vehicle whose intended fitness and
job-card scores are both 100. -/
theorem C8_emergency_eligibility_bug :
    (∀ (fetch : Int → TrainData) (trains : List TrainRec) (today : Int)
        (mode : PlanningMode), quick_eligibility_check fetch trains today mode = []) ∧
    (∀ (fetch : Int → TrainData) (all_trains : List TrainRec) (today : Int)
        (wid : String) (mode : PlanningMode),
      all_trains.filter
          (fun t => t.status = some "STANDBY" ∨ t.status = some "DEPOT_READY") ≠ [] →
      replan all_trains fetch today wid mode =
        .failure "No eligible replacement trains found") ∧
    (evaluate_certificates good_certs 0 .emergency).1 = 100 ∧
    (evaluate_job_cards [] .emergency).1 = 100 := by
  refine ⟨quick_eligibility_check_empty, ?_, ?_, ?_⟩
  · intro fetch all_trains today wid mode h
    unfold replan
    rw [if_neg h, quick_eligibility_check_empty]
    simp
  · simp [evaluate_certificates, good_certs, classifyCertificates, days_until_date,
      is_emergency_mode, calculate_score_from_status]
  · simp [evaluate_job_cards]

/-- Witness for C8 at the concrete failing input. -/
theorem C8_emergency_eligibility_bug_witness :
    replan [good_train_rec] (fun _ => good_train_data) 0 "T3" .emergency =
      .failure "No eligible replacement trains found" :=
  C8_emergency_eligibility_bug.2.1 (fun _ => good_train_data) [good_train_rec] 0 "T3"
    .emergency (by decide)

/-! ## Lemmas about the backend optimizer -/

/-- Filtered length over an append of a singleton. -/
theorem filter_append_singleton_len {α : Type} (f : α → Bool) (l : List α) (p : α) :
    ((l ++ [p]).filter f).length = (l.filter f).length + (if f p then 1 else 0) := by
  rw [List.filter_append]
  by_cases h : f p <;> simp [List.filter_cons, h]

/-- A backend fitness score of 0 means no department is valid, hence
`fitness_valid` is false. -/
theorem fitness_score_zero_invalid (r s t : Bool)
    (h : (evaluate_fitness_b r s t).1 = 0) : (evaluate_fitness_b r s t).2 = false := by
  cases r <;> cases s <;> cases t <;>
    first
      | rfl
      | (exfalso
         simp only [evaluate_fitness_b, List.count_cons, List.count_nil] at h
         norm_num at h)

/-- Appending one non-matching assignment leaves a count unchanged. -/
theorem countType_append_ne (l : List (Nat × AssignmentType)) (x : Nat × AssignmentType)
    (ty : AssignmentType) (h : ¬ x.2 = ty) : countType (l ++ [x]) ty = countType l ty := by
  rw [countType, filter_append_singleton_len]
  simp [countType, h]

/-- Appending one matching assignment bumps the count. -/
theorem countType_append_eq (l : List (Nat × AssignmentType)) (x : Nat × AssignmentType)
    (ty : AssignmentType) (h : x.2 = ty) : countType (l ++ [x]) ty = countType l ty + 1 := by
  rw [countType, filter_append_singleton_len]
  simp [countType, h]

/-- The service count produced by the greedy fold: every eligible train is
sent to SERVICE while the running count is below the target, so the final
SERVICE count is `min (eligible) target` (stated with the count threaded
through the fold state). -/
theorem heuristic_fold_service_count (scores : Nat → TrainScores) :
    ∀ (l : List BackendTrain) (sc sb ib : Nat) (acc : List (Nat × AssignmentType)),
      sc ≤ trains_needed_for_service →
      countType ((l.foldl (heuristic_step scores) (sc, sb, ib, acc)).2.2.2) .service + sc =
        countType acc .service +
          min (sc + l.countP (fun t => (scores t.id).can_serve)) trains_needed_for_service := by
  intro l
  induction l with
  | nil =>
    intro sc sb ib acc hsc
    simp [Nat.min_eq_left hsc]
  | cons t ts ih =>
    intro sc sb ib acc hsc
    rw [List.foldl_cons]
    by_cases hcs : (scores t.id).can_serve
    · have hcp : List.countP (fun t => (scores t.id).can_serve) (t :: ts) =
          List.countP (fun t => (scores t.id).can_serve) ts + 1 := by
        simp [List.countP_cons, hcs]
      by_cases hlt : sc < trains_needed_for_service
      · have hstep : heuristic_step scores (sc, sb, ib, acc) t =
            (sc + 1, sb, ib, acc ++ [(t.id, AssignmentType.service)]) := by
          simp [heuristic_step, hcs, hlt]
        rw [hstep]
        have hx := ih (sc + 1) sb ib (acc ++ [(t.id, AssignmentType.service)]) (by omega)
        rw [countType_append_eq (acc) ((t.id, AssignmentType.service))
          (AssignmentType.service) rfl] at hx
        rw [hcp]
        omega
      · simp only [heuristic_step, hcs, Bool.not_true, Bool.false_eq_true, if_false, hlt]
        split_ifs with h1 h2 h3
        · have hx := ih sc (sb + 1) ib (acc ++ [(t.id, AssignmentType.standby)]) hsc
          rw [countType_append_ne _ _ _ (by simp)] at hx
          rw [hcp]
          omega
        · have hx := ih sc sb (ib + 1) (acc ++ [(t.id, AssignmentType.ibl_maintenance)]) hsc
          rw [countType_append_ne _ _ _ (by simp)] at hx
          rw [hcp]
          omega
        · have hx := ih sc sb (ib + 1) (acc ++ [(t.id, AssignmentType.ibl_cleaning)]) hsc
          rw [countType_append_ne _ _ _ (by simp)] at hx
          rw [hcp]
          omega
        · have hx := ih sc (sb + 1) ib (acc ++ [(t.id, AssignmentType.standby)]) hsc
          rw [countType_append_ne _ _ _ (by simp)] at hx
          rw [hcp]
          omega
    · have hcp : List.countP (fun t => (scores t.id).can_serve) (t :: ts) =
          List.countP (fun t => (scores t.id).can_serve) ts := by
        simp [List.countP_cons, hcs]
      have hstep : heuristic_step scores (sc, sb, ib, acc) t =
          (sc, sb, ib, acc ++ [(t.id, AssignmentType.out_of_service)]) := by
        simp [heuristic_step, hcs]
      rw [hstep]
      have hx := ih sc sb ib (acc ++ [(t.id, AssignmentType.out_of_service)]) hsc
      rw [countType_append_ne _ _ _ (by simp)] at hx
      rw [hcp]
      omega

/-- Appending one assignment changes the IBL count by its IBL-ness. -/
theorem countIbl_append_one (l : List (Nat × AssignmentType)) (x : Nat × AssignmentType) :
    countIblTypes (l ++ [x]) = countIblTypes l +
      (if (x.2 == AssignmentType.ibl_maintenance || x.2 == AssignmentType.ibl_cleaning ||
        x.2 == AssignmentType.ibl_both) then 1 else 0) := by
  rw [countIblTypes, filter_append_singleton_len]
  rfl

/-- The greedy fold sends at most `max_ibl_capacity - ib` additional trains
to IBL. -/
theorem heuristic_fold_ibl_bound (scores : Nat → TrainScores) :
    ∀ (l : List BackendTrain) (sc sb ib : Nat) (acc : List (Nat × AssignmentType)),
      ib ≤ max_ibl_capacity →
      countIblTypes ((l.foldl (heuristic_step scores) (sc, sb, ib, acc)).2.2.2) + ib ≤
        countIblTypes acc + max_ibl_capacity := by
  intro l
  induction l with
  | nil =>
    intro sc sb ib acc hib
    simp only [List.foldl_nil]
    omega
  | cons t ts ih =>
    intro sc sb ib acc hib
    rw [List.foldl_cons]
    by_cases hcs : (scores t.id).can_serve
    · by_cases hlt : sc < trains_needed_for_service
      · rw [show heuristic_step scores (sc, sb, ib, acc) t =
            (sc + 1, sb, ib, acc ++ [(t.id, AssignmentType.service)]) from by
          simp [heuristic_step, hcs, hlt]]
        have hx := ih (sc + 1) sb ib (acc ++ [(t.id, AssignmentType.service)]) hib
        rw [countIbl_append_one] at hx
        simp only [show ((AssignmentType.service == AssignmentType.ibl_maintenance ||
          AssignmentType.service == AssignmentType.ibl_cleaning ||
          AssignmentType.service == AssignmentType.ibl_both)) = false from rfl,
          Bool.false_eq_true, if_false] at hx
        omega
      · simp only [heuristic_step, hcs, Bool.not_true, Bool.false_eq_true, if_false, hlt]
        split_ifs with h1 h2 h3
        · have hx := ih sc (sb + 1) ib (acc ++ [(t.id, AssignmentType.standby)]) hib
          rw [countIbl_append_one] at hx
          simp only [show ((AssignmentType.standby == AssignmentType.ibl_maintenance ||
            AssignmentType.standby == AssignmentType.ibl_cleaning ||
            AssignmentType.standby == AssignmentType.ibl_both)) = false from rfl,
            Bool.false_eq_true, if_false] at hx
          omega
        · have hx := ih sc sb (ib + 1) (acc ++ [(t.id, AssignmentType.ibl_maintenance)])
            (by omega)
          rw [countIbl_append_one] at hx
          simp only [show ((AssignmentType.ibl_maintenance == AssignmentType.ibl_maintenance ||
            AssignmentType.ibl_maintenance == AssignmentType.ibl_cleaning ||
            AssignmentType.ibl_maintenance == AssignmentType.ibl_both)) = true from rfl,
            if_true] at hx
          omega
        · have hx := ih sc sb (ib + 1) (acc ++ [(t.id, AssignmentType.ibl_cleaning)])
            (by omega)
          rw [countIbl_append_one] at hx
          simp only [show ((AssignmentType.ibl_cleaning == AssignmentType.ibl_maintenance ||
            AssignmentType.ibl_cleaning == AssignmentType.ibl_cleaning ||
            AssignmentType.ibl_cleaning == AssignmentType.ibl_both)) = true from rfl,
            if_true] at hx
          omega
        · have hx := ih sc (sb + 1) ib (acc ++ [(t.id, AssignmentType.standby)]) hib
          rw [countIbl_append_one] at hx
          simp only [show ((AssignmentType.standby == AssignmentType.ibl_maintenance ||
            AssignmentType.standby == AssignmentType.ibl_cleaning ||
            AssignmentType.standby == AssignmentType.ibl_both)) = false from rfl,
            Bool.false_eq_true, if_false] at hx
          omega
    · rw [show heuristic_step scores (sc, sb, ib, acc) t =
          (sc, sb, ib, acc ++ [(t.id, AssignmentType.out_of_service)]) from by
        simp [heuristic_step, hcs]]
      have hx := ih sc sb ib (acc ++ [(t.id, AssignmentType.out_of_service)]) hib
      rw [countIbl_append_one] at hx
      simp only [show ((AssignmentType.out_of_service == AssignmentType.ibl_maintenance ||
        AssignmentType.out_of_service == AssignmentType.ibl_cleaning ||
        AssignmentType.out_of_service == AssignmentType.ibl_both)) = false from rfl,
        Bool.false_eq_true, if_false] at hx
      omega

/-- The greedy fold emits exactly one assignment per train, in traversal
order. -/
theorem heuristic_fold_fst (scores : Nat → TrainScores) :
    ∀ (l : List BackendTrain) (sc sb ib : Nat) (acc : List (Nat × AssignmentType)),
      ((l.foldl (heuristic_step scores) (sc, sb, ib, acc)).2.2.2).map Prod.fst =
        acc.map Prod.fst ++ l.map (·.id) := by
  intro l
  induction l with
  | nil =>
    intro sc sb ib acc
    simp
  | cons t ts ih =>
    intro sc sb ib acc
    rw [List.foldl_cons]
    by_cases hcs : (scores t.id).can_serve
    · by_cases hlt : sc < trains_needed_for_service
      · rw [show heuristic_step scores (sc, sb, ib, acc) t =
            (sc + 1, sb, ib, acc ++ [(t.id, AssignmentType.service)]) from by
          simp [heuristic_step, hcs, hlt]]
        rw [ih (sc + 1) sb ib (acc ++ [(t.id, AssignmentType.service)])]
        simp
      · simp only [heuristic_step, hcs, Bool.not_true, Bool.false_eq_true, if_false, hlt]
        split_ifs with h1 h2 h3 <;>
          · rw [ih]
            simp
    · rw [show heuristic_step scores (sc, sb, ib, acc) t =
          (sc, sb, ib, acc ++ [(t.id, AssignmentType.out_of_service)]) from by
        simp [heuristic_step, hcs]]
      rw [ih sc sb ib (acc ++ [(t.id, AssignmentType.out_of_service)])]
      simp

/-- `countType` as a `countP`. -/
theorem countType_eq_countP (l : List (Nat × AssignmentType)) (ty : AssignmentType) :
    countType l ty = l.countP (fun p => p.2 == ty) :=
  (List.countP_eq_length_filter _ _).symm

/-- `countIblTypes` as a `countP`. -/
theorem countIblTypes_eq_countP (l : List (Nat × AssignmentType)) :
    countIblTypes l = l.countP (fun p =>
      p.2 == AssignmentType.ibl_maintenance || p.2 == AssignmentType.ibl_cleaning ||
      p.2 == AssignmentType.ibl_both) :=
  (List.countP_eq_length_filter _ _).symm

/-- The SERVICE count of the solution readout equals the solver's
service-variable count. -/
theorem solution_service_count (trains : List BackendTrain) (scores : Nat → TrainScores)
    (assign : Nat → CatVars) :
    countType (solution_assignments trains scores assign) .service =
      serviceVarCount trains assign := by
  rw [countType_eq_countP]
  unfold solution_assignments serviceVarCount
  rw [List.countP_map, ← List.countP_eq_length_filter]
  refine List.countP_congr ?_
  intro t _
  simp only [Function.comp]
  cases hs : (assign t.id).service
  · cases hb : (assign t.id).standby
    · cases hi : (assign t.id).ibl
      · simp [hs, hb, hi]
      · simp only [hs, hb, hi, Bool.false_eq_true, if_false, if_true]
        split_ifs <;> simp
    · simp [hs, hb]
  · simp [hs]

/-- Under the exactly-one constraint, the STANDBY count of the solution
readout equals the solver's standby-variable count. -/
theorem solution_standby_count (trains : List BackendTrain) (scores : Nat → TrainScores)
    (assign : Nat → CatVars) (h : ∀ t ∈ trains, exactlyOne (assign t.id)) :
    countType (solution_assignments trains scores assign) .standby =
      standbyVarCount trains assign := by
  rw [countType_eq_countP]
  unfold solution_assignments standbyVarCount
  rw [List.countP_map, ← List.countP_eq_length_filter]
  refine List.countP_congr ?_
  intro t ht
  have he := h t ht
  unfold exactlyOne at he
  simp only [Function.comp]
  cases hs : (assign t.id).service
  · cases hb : (assign t.id).standby
    · cases hi : (assign t.id).ibl
      · simp [hs, hb, hi]
      · simp only [hs, hb, hi, Bool.false_eq_true, if_false, if_true]
        split_ifs <;> simp
    · simp [hs, hb]
  · rw [hs] at he
    cases hb : (assign t.id).standby
    · simp [hs, hb]
    · rw [hb] at he
      simp only [Bool.toNat_true] at he
      omega

/-- Under the exactly-one constraint, the IBL count of the solution readout
equals the solver's IBL-variable count. -/
theorem solution_ibl_count (trains : List BackendTrain) (scores : Nat → TrainScores)
    (assign : Nat → CatVars) (h : ∀ t ∈ trains, exactlyOne (assign t.id)) :
    countIblTypes (solution_assignments trains scores assign) =
      iblVarCount trains assign := by
  rw [countIblTypes_eq_countP]
  unfold solution_assignments iblVarCount
  rw [List.countP_map, ← List.countP_eq_length_filter]
  refine List.countP_congr ?_
  intro t ht
  have he := h t ht
  unfold exactlyOne at he
  simp only [Function.comp]
  cases hs : (assign t.id).service
  · cases hb : (assign t.id).standby
    · cases hi : (assign t.id).ibl
      · simp [hs, hb, hi]
      · simp only [hs, hb, hi, Bool.false_eq_true, if_false, if_true]
        split_ifs <;> simp
    · rw [hs, hb] at he
      cases hi : (assign t.id).ibl
      · simp [hs, hb, hi]
      · rw [hi] at he
        simp only [Bool.toNat_true] at he
        omega
  · rw [hs] at he
    cases hi : (assign t.id).ibl
    · simp [hs, hi]
    · rw [hi] at he
      simp only [Bool.toNat_true] at he
      omega

/-- The stable sort permutes the train list. -/
theorem sortTrainsByScore_perm (trains : List BackendTrain) (scores : Nat → TrainScores) :
    (sortTrainsByScore trains scores).Perm trains :=
  List.mergeSort_perm trains _

/-- The greedy fallback emits exactly one assignment per train: its id
column is a permutation of the fleet. -/
theorem create_heuristic_fst_perm (trains : List BackendTrain)
    (scores : Nat → TrainScores) :
    ((create_heuristic_assignments trains scores).map Prod.fst).Perm
      (trains.map (fun t => t.id)) := by
  unfold create_heuristic_assignments
  rw [heuristic_fold_fst]
  simp only [List.map_nil, List.nil_append]
  exact (sortTrainsByScore_perm trains scores).map (fun t => t.id)

/-- SERVICE count of the greedy fallback: the eligible count capped at the
service target. -/
theorem create_heuristic_service_count (trains : List BackendTrain)
    (scores : Nat → TrainScores) :
    countType (create_heuristic_assignments trains scores) .service =
      min (trains.countP (fun t => (scores t.id).can_serve)) trains_needed_for_service := by
  unfold create_heuristic_assignments
  have h := heuristic_fold_service_count scores (sortTrainsByScore trains scores) 0 0 0 []
    (by omega)
  have hcp : (sortTrainsByScore trains scores).countP (fun t => (scores t.id).can_serve) =
      trains.countP (fun t => (scores t.id).can_serve) :=
    (sortTrainsByScore_perm trains scores).countP_eq _
  rw [hcp] at h
  rw [show countType ([] : List (Nat × AssignmentType)) AssignmentType.service = 0 from rfl]
    at h
  simpa using h

/-- IBL count of the greedy fallback never exceeds the IBL capacity. -/
theorem create_heuristic_ibl_bound (trains : List BackendTrain)
    (scores : Nat → TrainScores) :
    countIblTypes (create_heuristic_assignments trains scores) ≤ max_ibl_capacity := by
  unfold create_heuristic_assignments
  have h := heuristic_fold_ibl_bound scores (sortTrainsByScore trains scores) 0 0 0 []
    (by omega)
  simpa using h

/-! ## Claims C1, C6, C7 -/

/-- C1 (amended): in the weighted-ranking pass a fitness score of 0 or a
job-card score of 0 forces composite 0 and action MAINTENANCE (never
REVENUE/SERVICE, never STANDBY), regardless of the other domain scores and
conflicts; in the constrained solver, any feasible assignment excludes a
vehicle from SERVICE and STANDBY when its backend fitness score is 0 (all
certificates invalid) or it has a blocking open work item — but not on a
job-card domain score of 0 alone (see the counterexample). -/
theorem C1_hard_constraint_dominance :
    (∀ (s : AgentScores) (mode : PlanningMode) (b : ℚ),
      scoreGetD s .fitness_certificate 100 = 0 ∨ scoreGetD s .job_card 100 = 0 →
      calculate_composite_score s mode b = 0) ∧
    (∀ (comp : ℚ) (s : AgentScores) (tid : Int) (conflicts : List ConflictAlert),
      scoreGetD s .fitness_certificate 100 = 0 ∨ scoreGetD s .job_card 100 = 0 →
      determine_action comp s tid conflicts = .maintenance) ∧
    (∀ (trains : List BackendTrain) (scores : Nat → TrainScores)
        (assign : Nat → CatVars),
      hard_constraints trains scores assign →
      ∀ t ∈ trains, ∀ (r sg tel : Bool),
        (scores t.id).fitness_score = (evaluate_fitness_b r sg tel).1 →
        (scores t.id).fitness_valid = (evaluate_fitness_b r sg tel).2 →
        (scores t.id).can_serve = can_serve_calc (scores t.id).fitness_valid
          (scores t.id).maintenance_blocks t.status →
        ((scores t.id).fitness_score = 0 ∨ (scores t.id).maintenance_blocks = true) →
        (assign t.id).service = false ∧ (assign t.id).standby = false) := by
  refine ⟨?_, ?_, ?_⟩
  · intro s mode b h
    unfold calculate_composite_score
    rcases h with h | h
    · rw [if_pos h]
    · by_cases hf : scoreGetD s .fitness_certificate 100 = 0
      · rw [if_pos hf]
      · rw [if_neg hf, if_pos h]
  · intro comp s tid conflicts h
    unfold determine_action
    rcases h with h | h
    · rw [if_pos h]
    · by_cases hf : scoreGetD s .fitness_certificate 100 = 0
      · rw [if_pos hf]
      · rw [if_neg hf, if_pos h]
  · intro trains scores assign hc t ht r sg tel hfs hfv hcs h0
    obtain ⟨h1, h2, h3, h4, h5, h6, h7⟩ := hc
    have hns : (scores t.id).can_serve = false := by
      rcases h0 with h0 | h0
      · have hval : (evaluate_fitness_b r sg tel).2 = false :=
          fitness_score_zero_invalid r sg tel (hfs ▸ h0)
        rw [hcs, can_serve_calc, hfv, hval]
        simp
      · rw [hcs, can_serve_calc, h0]
        simp
    exact h6 t ht hns

/-- The four open, critical-priority, non-blocking job cards of the C1
counterexample. -/
def cx_job : BackendJob := { priority := .critical }

/-- Job list of the C1 counterexample. -/
def cx_jobs : List BackendJob := [cx_job, cx_job, cx_job, cx_job]

/-- A 19-train fleet (ids 0..18, all ACTIVE). -/
def cx_trains : List BackendTrain := (List.range 19).map (fun i => { id := i })

/-- Backend scores: train 0 carries the four critical jobs (job-card domain
score 0, no blocking item); every other train is clean. -/
def cx_scores : Nat → TrainScores := fun i =>
  if i = 0 then
    { maintenance_score := (evaluate_maintenance_b cx_jobs).maintenance_score
      maintenance_blocks := (evaluate_maintenance_b cx_jobs).maintenance_blocks
      must_ibl := (evaluate_maintenance_b cx_jobs).must_ibl }
  else {}

/-- A feasible assignment putting train 0 in SERVICE. -/
def cx_assign : Nat → CatVars := fun i =>
  if i < 16 then { service := true } else { standby := true }

/-- C1 counterexample: a vehicle whose backend job-card domain score is 0
(four open critical jobs, none blocking) can be assigned SERVICE by an
assignment satisfying every hard constraint of the model — the claim's
job-card clause does not hold in the constrained solver. -/
theorem C1_counterexample :
    hard_constraints cx_trains cx_scores cx_assign ∧
    (cx_scores 0).maintenance_score = (evaluate_maintenance_b cx_jobs).maintenance_score ∧
    (cx_scores 0).maintenance_score = 0 ∧
    (cx_scores 0).maintenance_blocks = false ∧
    (cx_scores 0).can_serve = true ∧
    (cx_assign 0).service = true := by
  refine ⟨by decide, rfl, ?_, by decide, by decide, by decide⟩
  show (if 0 = 0 then
      ({ maintenance_score := (evaluate_maintenance_b cx_jobs).maintenance_score
         maintenance_blocks := (evaluate_maintenance_b cx_jobs).maintenance_blocks
         must_ibl := (evaluate_maintenance_b cx_jobs).must_ibl } : TrainScores)
    else {}).maintenance_score = 0
  rw [if_pos rfl]
  show (evaluate_maintenance_b cx_jobs).maintenance_score = 0
  unfold evaluate_maintenance_b cx_jobs cx_job
  simp [isOpenStatus]
  norm_num

/-- Agent scores of the C1 witness: fitness 0, everything else 80. -/
def wa_scores : AgentScores :=
  fun a => if a = .fitness_certificate then some 0 else some 80

/-- The single blocking job of the C1 witness fleet. -/
def wb_job : BackendJob := { safety_critical := true }

/-- Backend scores of the C1 witness fleet: train 0 has a blocking open work
item (fields computed by the backend evaluators); the rest are clean. -/
def wb_scores : Nat → TrainScores := fun i =>
  if i = 0 then
    { fitness_score := (evaluate_fitness_b true true true).1
      fitness_valid := (evaluate_fitness_b true true true).2
      maintenance_score := (evaluate_maintenance_b [wb_job]).maintenance_score
      maintenance_blocks := (evaluate_maintenance_b [wb_job]).maintenance_blocks
      must_ibl := (evaluate_maintenance_b [wb_job]).must_ibl
      can_serve := can_serve_calc (evaluate_fitness_b true true true).2
        (evaluate_maintenance_b [wb_job]).maintenance_blocks .active }
  else {}

/-- A satisfying assignment for the witness fleet: train 0 OUT_OF_SERVICE,
trains 1-16 SERVICE, trains 17-18 STANDBY. -/
def wb_assign : Nat → CatVars := fun i =>
  if i = 0 then { oos := true } else if i ≤ 16 then { service := true }
  else { standby := true }

/-- Witness for C1 at concrete inputs. -/
theorem C1_hard_constraint_dominance_witness :
    calculate_composite_score wa_scores .normal 0 = 0 ∧
    determine_action 90 wa_scores 5 [] = .maintenance ∧
    ((wb_assign 0).service = false ∧ (wb_assign 0).standby = false) :=
  ⟨C1_hard_constraint_dominance.1 wa_scores .normal 0 (Or.inl rfl),
   C1_hard_constraint_dominance.2.1 90 wa_scores 5 [] (Or.inl rfl),
   C1_hard_constraint_dominance.2.2 cx_trains wb_scores wb_assign (by decide)
     { id := 0 } (by decide) true true true rfl rfl rfl (Or.inr rfl)⟩

/-- C6 (amended): any assignment satisfying the solver's hard constraints
yields plan counts within the capacity bounds (SERVICE in the 18±2 band, at
least 2 STANDBY, at most 4 IBL); the greedy fallback guarantees only the two
upper bounds — at most 4 IBL and at most 18 ≤ 20 SERVICE (the lower bounds
can fail, see the counterexample). -/
theorem C6_capacity_bounds :
    (∀ (trains : List BackendTrain) (scores : Nat → TrainScores)
        (assign : Nat → CatVars),
      hard_constraints trains scores assign →
      trains_needed_for_service - 2 ≤
          countType (solution_assignments trains scores assign) .service ∧
        countType (solution_assignments trains scores assign) .service ≤
          trains_needed_for_service + 2 ∧
        standby_count_cfg ≤ countType (solution_assignments trains scores assign) .standby ∧
        countIblTypes (solution_assignments trains scores assign) ≤ max_ibl_capacity) ∧
    (∀ (trains : List BackendTrain) (scores : Nat → TrainScores),
      countIblTypes (create_heuristic_assignments trains scores) ≤ max_ibl_capacity ∧
      countType (create_heuristic_assignments trains scores) .service ≤
        trains_needed_for_service + 2) := by
  constructor
  · intro trains scores assign hc
    obtain ⟨h1, h2, h3, h4, h5, h6, h7⟩ := hc
    rw [solution_service_count, solution_standby_count trains scores assign h1,
      solution_ibl_count trains scores assign h1]
    exact ⟨h2, h3, h4, h5⟩
  · intro trains scores
    refine ⟨create_heuristic_ibl_bound trains scores, ?_⟩
    rw [create_heuristic_service_count]
    unfold trains_needed_for_service
    omega

/-- C6 counterexample: on a fleet of one eligible train the greedy fallback
produces 1 SERVICE and 0 STANDBY assignments, violating both the service
band lower bound (16) and the standby minimum (2). -/
theorem C6_counterexample :
    countType (create_heuristic_assignments [{ id := 0 }] (fun _ => {})) .service = 1 ∧
    countType (create_heuristic_assignments [{ id := 0 }] (fun _ => {})) .standby = 0 ∧
    ¬ (trains_needed_for_service - 2 ≤
        countType (create_heuristic_assignments [{ id := 0 }] (fun _ => {})) .service) ∧
    ¬ (standby_count_cfg ≤
        countType (create_heuristic_assignments [{ id := 0 }] (fun _ => {})) .standby) := by
  have hrun : create_heuristic_assignments [{ id := 0 }] (fun _ => {}) =
      [(0, AssignmentType.service)] := by
    unfold create_heuristic_assignments
    rw [show sortTrainsByScore [{ id := 0 }] (fun _ => {}) = [{ id := 0 }] from by
      simp [sortTrainsByScore]]
    rfl
  rw [hrun]
  refine ⟨by decide, by decide, by decide, by decide⟩

/-- Witness for C6 at concrete inputs. -/
theorem C6_capacity_bounds_witness :
    (trains_needed_for_service - 2 ≤
        countType (solution_assignments cx_trains cx_scores cx_assign) .service ∧
      countType (solution_assignments cx_trains cx_scores cx_assign) .service ≤
        trains_needed_for_service + 2 ∧
      standby_count_cfg ≤ countType (solution_assignments cx_trains cx_scores cx_assign) .standby ∧
      countIblTypes (solution_assignments cx_trains cx_scores cx_assign) ≤ max_ibl_capacity) ∧
    (countIblTypes (create_heuristic_assignments [] (fun _ => {})) ≤ max_ibl_capacity ∧
      countType (create_heuristic_assignments [] (fun _ => {})) .service ≤
        trains_needed_for_service + 2) :=
  ⟨C6_capacity_bounds.1 cx_trains cx_scores cx_assign (by decide),
   C6_capacity_bounds.2 [] (fun _ => {})⟩

/-- C7: when the solver fails, the greedy fallback still assigns exactly one
category to every vehicle (the id column of its output is a permutation of
the fleet), its SERVICE count is the eligible count capped at the target
(covering the fewer-eligible-than-target case), and the plan built from a
non-OPTIMAL/non-FEASIBLE status uses the heuristic assignments and records
`hard_constraints_violated ≥ 1`. -/
theorem C7_greedy_fallback :
    (∀ (trains : List BackendTrain) (scores : Nat → TrainScores),
      ((create_heuristic_assignments trains scores).map Prod.fst).Perm
        (trains.map (fun t => t.id))) ∧
    (∀ (trains : List BackendTrain) (scores : Nat → TrainScores),
      countType (create_heuristic_assignments trains scores) .service =
        min (trains.countP (fun t => (scores t.id).can_serve)) trains_needed_for_service) ∧
    (∀ (status : SolverStatus) (trains : List BackendTrain)
        (scores : Nat → TrainScores) (assign : Nat → CatVars),
      status ≠ .optimal → status ≠ .feasible →
      plan_assignments status trains scores assign =
          create_heuristic_assignments trains scores ∧
        1 ≤ hard_constraints_violated status) := by
  refine ⟨create_heuristic_fst_perm, create_heuristic_service_count, ?_⟩
  intro status trains scores assign h1 h2
  unfold plan_assignments hard_constraints_violated
  rw [if_neg (by tauto), if_neg (by tauto)]
  exact ⟨rfl, le_refl 1⟩

/-- The two-train fleet of the C7 witness: one eligible train, one not —
fewer eligible vehicles than the service target. -/
def c7_trains : List BackendTrain := [{ id := 0 }, { id := 1 }]

/-- Scores for the C7 witness fleet. -/
def c7_scores : Nat → TrainScores :=
  fun i => if i = 0 then {} else { can_serve := false }

/-- Witness for C7 at concrete inputs (solver status INFEASIBLE, fewer
eligible trains than the target). -/
theorem C7_greedy_fallback_witness :
    ((create_heuristic_assignments c7_trains c7_scores).map Prod.fst).Perm
      (c7_trains.map (fun t => t.id)) ∧
    countType (create_heuristic_assignments c7_trains c7_scores) .service =
      min (c7_trains.countP (fun t => (c7_scores t.id).can_serve))
        trains_needed_for_service ∧
    plan_assignments .infeasible c7_trains c7_scores (fun _ => {}) =
      create_heuristic_assignments c7_trains c7_scores ∧
    1 ≤ hard_constraints_violated .infeasible :=
  ⟨C7_greedy_fallback.1 c7_trains c7_scores,
   C7_greedy_fallback.2.1 c7_trains c7_scores,
   (C7_greedy_fallback.2.2 .infeasible c7_trains c7_scores (fun _ => {})
      (by decide) (by decide)).1,
   (C7_greedy_fallback.2.2 .infeasible c7_trains c7_scores (fun _ => {})
      (by decide) (by decide)).2⟩

end KMRL
